import Mathlib

/-!
Shallow embedding of the Machina mission-orchestration engine
(`app/core/orchestration/agent_orchestrator.py`, `agent_state.py`,
`data_models.py`, `app/core/tools/registry.py`) and proofs about the
spec claims.

Modelling conventions:
* Python exceptions are explicit outcome sum types; the
  `HumanInterventionRequired` suspension signal is one constructor.
* The LLM Bridge and the I/O-performing web tools are external
  collaborators; they are passed in as oracle functions.  Everything in
  the repository itself is translated directly.
* Wall-clock data (timestamps inside history entries, `created_at`,
  `started_at`, `execution_time_seconds`, uuid generation) is
  environment nondeterminism: history entries are modelled as their
  message text without the `[HH:MM:SS]` prefix, the timestamp fields are
  omitted, and the generated `mission_id` is a parameter.
* Python floats are modelled as exact rationals (a proof-free
  numerator/denominator pair, so that the kernel can evaluate them).
-/

set_option maxRecDepth 100000
set_option maxHeartbeats 2000000

namespace Machina

/-! String helpers.  The corresponding core functions are implemented
with well-founded recursion or byte positions and do not reduce inside
the kernel; these structural versions over `String.data` do, which lets
every theorem below be checked by evaluation. -/

/-- Whitespace test used by `str.strip`. -/
def isSpaceChar (c : Char) : Bool :=
  c = ' ' ∨ c = '\n' ∨ c = '\t' ∨ c = '\r'

/-- Python `str.strip()`. -/
def pytrim (s : String) : String :=
  String.mk (((s.data.dropWhile isSpaceChar).reverse.dropWhile isSpaceChar).reverse)

/-- ASCII lower-casing of one character. -/
def lowerChar (c : Char) : Char :=
  if 65 ≤ c.toNat ∧ c.toNat ≤ 90 then Char.ofNat (c.toNat + 32) else c

/-- Python `str.lower()` (ASCII range, which covers every name the
engine compares). -/
def pyToLower (s : String) : String :=
  String.mk (s.data.map lowerChar)

/-- Removes a prefix, when present. -/
def dropPre : List Char → List Char → Option (List Char)
  | [], l => some l
  | _ :: _, [] => none
  | p :: ps, c :: cs => if p = c then dropPre ps cs else none

/-- Python `str.startswith`. -/
def pyStartsWith (s pre : String) : Bool :=
  (dropPre pre.data s.data).isSome

/-- Python `str.endswith`. -/
def pyEndsWith (s suf : String) : Bool :=
  (dropPre suf.data.reverse s.data.reverse).isSome

/-- Fueled splitter on a non-empty separator. -/
def splitAux (sep : List Char) : Nat → List Char → List Char → List (List Char)
  | 0, l, acc => [acc.reverse ++ l]
  | Nat.succ fuel, l, acc =>
    match l with
    | [] => [acc.reverse]
    | c :: rest =>
      match dropPre sep l with
      | some rem => acc.reverse :: splitAux sep fuel rem []
      | none => splitAux sep fuel rest (c :: acc)

/-- Python `str.split(sep)` for a non-empty separator. -/
def pySplitOn (s sep : String) : List String :=
  if sep.data.isEmpty then [s]
  else (splitAux sep.data (s.data.length + 1) s.data []).map String.mk

/-- Substring test, like the Python `in` operator on strings. -/
def containsSub (s pat : String) : Bool :=
  if pat.data.isEmpty then true else (pySplitOn s pat).length > 1

/-- String length (`len`), via the character list. -/
def strLen (s : String) : Nat := s.data.length

/-! Numbers.  Python floats are modelled as exact rationals; `Rat` does
not evaluate inside the kernel, so values are carried as normalized
numerator/denominator pairs with proof-free arithmetic. -/

/-- An exact rational: normalized numerator and positive denominator. -/
structure PyNum where
  num : Int
  den : Nat
deriving DecidableEq, Inhabited

instance (n : Nat) : OfNat PyNum n := ⟨⟨n, 1⟩⟩

/-- Normalizes a fraction. -/
def PyNum.normalize (n : Int) (d : Nat) : PyNum :=
  if d = 0 then ⟨0, 1⟩
  else
    let g := Nat.gcd n.natAbs d
    ⟨n / (g : Int), d / g⟩

/-- Comparison `a ≤ b` by cross multiplication. -/
def PyNum.le (a b : PyNum) : Bool :=
  decide (a.num * (b.den : Int) ≤ b.num * (a.den : Int))

/-- Multiplication. -/
def PyNum.mul (a b : PyNum) : PyNum :=
  PyNum.normalize (a.num * b.num) (a.den * b.den)

/-- Division (sign moved into the numerator). -/
def PyNum.div (a b : PyNum) : PyNum :=
  if b.num < 0 then PyNum.normalize (-(a.num * (b.den : Int))) (a.den * b.num.natAbs)
  else PyNum.normalize (a.num * (b.den : Int)) (a.den * b.num.natAbs)

/-- Decimal-free rendering of a rational. -/
def PyNum.render (a : PyNum) : String :=
  if a.den = 1 then toString a.num else toString a.num ++ "/" ++ toString a.den

/-- Association-list lookup, modelling Python `dict` access preserving
insertion order. -/
def alookup {α : Type} (l : List (String × α)) (k : String) : Option α :=
  match l with
  | [] => none
  | (k', v) :: rest => if k' = k then some v else alookup rest k

/-- Association-list update modelling Python `dict` assignment: replace in
place when the key exists, append otherwise. -/
def aupsert {α : Type} (l : List (String × α)) (k : String) (v : α) :
    List (String × α) :=
  match l with
  | [] => [(k, v)]
  | (k', v') :: rest =>
    if k' = k then (k', v) :: rest else (k', v') :: aupsert rest k v

/-- Count of occurrences of a string in a list (used to observe how often a
given history entry was appended). -/
def countOcc (l : List String) (x : String) : Nat :=
  (l.filter (fun y => y = x)).length

/-- JSON values, the shape produced by Python `json.loads`.  Numbers are
modelled as rationals (exponent-free numerals only, which covers every
JSON document the engine itself produces or consumes in the claims). -/
inductive Json where
  | null
  | bool (b : Bool)
  | num (q : PyNum)
  | str (s : String)
  | arr (items : List Json)
  | obj (fields : List (String × Json))
deriving Inhabited

/-- Whitespace skipping for the JSON reader. -/
def skipWs : List Char → List Char
  | c :: cs =>
    if c = ' ' ∨ c = '\n' ∨ c = '\t' ∨ c = '\r' then skipWs cs else c :: cs
  | [] => []

/-- Reads a JSON string body (after the opening quote), with the common
escape sequences. -/
def parseStringChars (acc : List Char) : List Char → Option (String × List Char)
  | [] => none
  | '"' :: rest => some (String.mk acc.reverse, rest)
  | '\\' :: c :: rest =>
    let c' := if c = 'n' then '\n' else if c = 't' then '\t'
      else if c = 'r' then '\r' else c
    parseStringChars (c' :: acc) rest
  | ['\\'] => none
  | c :: rest => parseStringChars (c :: acc) rest

/-- Reads a maximal run of decimal digits. -/
def parseDigits (acc : List Char) : List Char → (List Char × List Char)
  | c :: cs =>
    if c.isDigit then parseDigits (c :: acc) cs else (acc.reverse, c :: cs)
  | [] => (acc.reverse, [])

/-- Numeric value of a digit run. -/
def digitsVal (ds : List Char) : Nat :=
  ds.foldl (fun a c => a * 10 + (c.toNat - 48)) 0

/-- Reads a JSON numeral (optional sign, integer part, optional fraction). -/
def parseNumber (cs : List Char) : Option (PyNum × List Char) :=
  let signed := match cs with
    | '-' :: rest => (true, rest)
    | _ => (false, cs)
  match parseDigits [] signed.2 with
  | ([], _) => none
  | (ds, rest) =>
    match rest with
    | '.' :: rest2 =>
      (match parseDigits [] rest2 with
       | ([], _) => none
       | (fs, rest3) =>
         let scale := 10 ^ fs.length
         let mag : Int := ((digitsVal ds * scale + digitsVal fs : Nat) : Int)
         some (PyNum.normalize (if signed.1 then -mag else mag) scale, rest3))
    | _ =>
      let mag : Int := ((digitsVal ds : Nat) : Int)
      some (⟨if signed.1 then -mag else mag, 1⟩, rest)

mutual

/-- Fueled recursive-descent JSON reader: one value. -/
def parseValue : Nat → List Char → Option (Json × List Char)
  | 0, _ => none
  | Nat.succ fuel, cs =>
    match skipWs cs with
    | '"' :: rest =>
      (match parseStringChars [] rest with
       | some (s, r) => some (Json.str s, r)
       | none => none)
    | '\x7b' :: rest =>
      (match skipWs rest with
       | '\x7d' :: r => some (Json.obj [], r)
       | cs1 =>
         match parseMember fuel cs1 with
         | some (kv, r) =>
           (match parseObjTail fuel r with
            | some (kvs, r2) => some (Json.obj (kv :: kvs), r2)
            | none => none)
         | none => none)
    | '[' :: rest =>
      (match skipWs rest with
       | ']' :: r => some (Json.arr [], r)
       | cs1 =>
         match parseValue fuel cs1 with
         | some (v, r) =>
           (match parseArrTail fuel r with
            | some (vs, r2) => some (Json.arr (v :: vs), r2)
            | none => none)
         | none => none)
    | 't' :: 'r' :: 'u' :: 'e' :: rest => some (Json.bool true, rest)
    | 'f' :: 'a' :: 'l' :: 's' :: 'e' :: rest => some (Json.bool false, rest)
    | 'n' :: 'u' :: 'l' :: 'l' :: rest => some (Json.null, rest)
    | cs1 =>
      match parseNumber cs1 with
      | some (q, r) => some (Json.num q, r)
      | none => none

/-- Fueled recursive-descent JSON reader: one `"key": value` member. -/
def parseMember : Nat → List Char → Option ((String × Json) × List Char)
  | 0, _ => none
  | Nat.succ fuel, cs =>
    match skipWs cs with
    | '"' :: rest =>
      (match parseStringChars [] rest with
       | some (k, r) =>
         (match skipWs r with
          | ':' :: r2 =>
            (match parseValue fuel r2 with
             | some (v, r3) => some ((k, v), r3)
             | none => none)
          | _ => none)
       | none => none)
    | _ => none

/-- Fueled recursive-descent JSON reader: remaining array items. -/
def parseArrTail : Nat → List Char → Option (List Json × List Char)
  | 0, _ => none
  | Nat.succ fuel, cs =>
    match skipWs cs with
    | ',' :: rest =>
      (match parseValue fuel rest with
       | some (v, r) =>
         (match parseArrTail fuel r with
          | some (vs, r2) => some (v :: vs, r2)
          | none => none)
       | none => none)
    | ']' :: rest => some ([], rest)
    | _ => none

/-- Fueled recursive-descent JSON reader: remaining object members. -/
def parseObjTail : Nat → List Char → Option (List (String × Json) × List Char)
  | 0, _ => none
  | Nat.succ fuel, cs =>
    match skipWs cs with
    | ',' :: rest =>
      (match parseMember fuel rest with
       | some (kv, r) =>
         (match parseObjTail fuel r with
          | some (kvs, r2) => some (kv :: kvs, r2)
          | none => none)
       | none => none)
    | '\x7d' :: rest => some ([], rest)
    | _ => none

end

/-- Model of Python `json.loads`: parse a complete document, rejecting
trailing garbage (a parse failure stands for `json.JSONDecodeError`). -/
def jsonParse (s : String) : Option Json :=
  match parseValue (s.data.length + 2) s.data with
  | some (j, rest) => if (skipWs rest).isEmpty then some j else none
  | none => none

mutual

/-- Rendering of JSON values back to text, modelling `json.dumps` (used
when a tool result is folded into the next prompt). -/
def Json.render : Json → String
  | .null => "null"
  | .bool true => "true"
  | .bool false => "false"
  | .num q => q.render
  | .str s => "\"" ++ s ++ "\""
  | .arr xs => "[" ++ Json.renderItems xs ++ "]"
  | .obj fs => "\x7b" ++ Json.renderFields fs ++ "\x7d"

/-- Renders array items, comma separated. -/
def Json.renderItems : List Json → String
  | [] => ""
  | [x] => Json.render x
  | x :: xs => Json.render x ++ ", " ++ Json.renderItems xs

/-- Renders object members, comma separated. -/
def Json.renderFields : List (String × Json) → String
  | [] => ""
  | [(k, v)] => "\"" ++ k ++ "\": " ++ Json.render v
  | (k, v) :: fs => "\"" ++ k ++ "\": " ++ Json.render v ++ ", " ++ Json.renderFields fs

end

/-- Key lookup on a JSON object (Python `parsed['key']` / `'key' in parsed`). -/
def Json.getKey (j : Json) (k : String) : Option Json :=
  match j with
  | .obj fields => alookup fields k
  | _ => none

/-- Whether a JSON value is an object holding the given key. -/
def Json.hasKey (j : Json) (k : String) : Bool :=
  (j.getKey k).isSome

/-! Data models (`orchestration/data_models.py`). -/

/-- Enumerated QA recommendation (`data_models.Recommendation`). -/
inductive Recommendation where
  | publish
  | revise
  | research_more
  | fail
deriving DecidableEq

/-- String payload of a `Recommendation` member (`.value` in Python). -/
def Recommendation.value : Recommendation → String
  | .publish => "publish"
  | .revise => "revise"
  | .research_more => "research_more"
  | .fail => "fail"

/-- Structured QA verdict (`data_models.QualityAssessment`). -/
structure QualityAssessment where
  recommendation : Recommendation
  reasoning : String
  strengths : List String := []
  issues_found : List String := []
  confidence_score : PyNum := ⟨9, 10⟩
deriving DecidableEq

/-- Detailed QA report (`data_models.QAReport`). -/
structure QAReport where
  overall_score : PyNum
  critical_issues : List String := []
  minor_issues : List String := []
  strengths : List String := []
  feedback_summary : String
  meets_requirements : Bool
  recommendation : String
  revision_count : Int := 0
  estimated_completion : PyNum
deriving DecidableEq

/-- One research fact (`data_models.ResearchFinding`); the creation
timestamp field of the report is environment data and omitted. -/
structure ResearchFinding where
  finding : String
  source : String
  quote : Option String := none
  relevance_score : PyNum := ⟨4, 5⟩
deriving DecidableEq

/-- Researcher output (`data_models.ResearchReport`). -/
structure ResearchReport where
  summary : String
  findings : List ResearchFinding := []
  confidence_score : PyNum := ⟨9, 10⟩
  research_scope : String := "general"
deriving DecidableEq

/-- Writer output (`data_models.FinalReport`). -/
structure FinalReport where
  title : String
  content : String
  references : List String := []
  word_count : Option Int := none
  quality_score : PyNum := ⟨9, 10⟩
deriving DecidableEq

/-- One planned task (`data_models.TaskPlan`). -/
structure TaskPlan where
  task_id : String
  description : String
  assigned_agent : String
  expected_output : String
  priority : Int := 1
deriving DecidableEq

/-- Human-in-the-loop request (`data_models.HumanRequest`). -/
structure HumanRequest where
  agent_name : String
  question : String
  context : String := ""
  options : Option (List String) := none
  urgency : String := "medium"
  timeout_seconds : Option Int := some 300
deriving DecidableEq

/-- A value stored in `AgentState.results`: the engine stores raw strings,
typed pydantic results, and plain dictionaries (for tool results). -/
inductive ResultValue where
  | text (s : String)
  | qa (q : QualityAssessment)
  | qaReport (r : QAReport)
  | research (r : ResearchReport)
  | finalReport (r : FinalReport)
  | json (j : Json)

/-! Mission state (`orchestration/agent_state.py`). -/

/-- The persisted mission aggregate (`agent_state.AgentState`).  The
wall-clock fields (`created_at`, `started_at`, `completed_at`,
`execution_time_seconds`) are omitted: they are environment
nondeterminism and no claim depends on them. -/
structure AgentState where
  mission_id : String
  crew_name : String
  high_level_goal : String
  task_plan : Option (List TaskPlan) := none
  current_node : Option String := none
  completed_nodes : List String := []
  results : List (String × List (String × ResultValue)) := []
  intermediate_data : List (String × Json) := []
  status : String := "PENDING"
  progress_percentage : PyNum := ⟨0, 1⟩
  history : List String := []
  error_messages : List String := []
  active_human_request : Option HumanRequest := none
deriving Inhabited

/-- Appends a history entry (`AgentState.add_history_entry`); the
`[HH:MM:SS]` wall-clock prefix is omitted. -/
def AgentState.add_history_entry (s : AgentState) (message : String) : AgentState :=
  { s with history := s.history ++ [message] }

/-- Marks the start of execution (`AgentState.start_execution`). -/
def AgentState.start_execution (s : AgentState) : AgentState :=
  ({ s with status := "RUNNING" }).add_history_entry "Mission execution started"

/-- Marks successful completion (`AgentState.complete_execution`). -/
def AgentState.complete_execution (s : AgentState) : AgentState :=
  ({ s with status := "COMPLETED", progress_percentage := ⟨100, 1⟩ }).add_history_entry
    "Mission execution completed successfully"

/-- Records an error (`AgentState.mark_error`); the timestamp prefix of
the recorded message is omitted. -/
def AgentState.mark_error (s : AgentState) (error_message : String) : AgentState :=
  ({ s with
      status := "ERROR"
      error_messages := s.error_messages ++ [error_message] }).add_history_entry
    ("ERROR: " ++ error_message)

/-- Switches the active node (`AgentState.set_current_node`): the previous
current node is moved into `completed_nodes` when not already there, and
the progress estimate is refreshed when a non-empty task plan exists. -/
def AgentState.set_current_node (s : AgentState) (node_name : String) : AgentState :=
  let s1 := match s.current_node with
    | some c =>
      if c ∈ s.completed_nodes then s
      else { s with completed_nodes := s.completed_nodes ++ [c] }
    | none => s
  let s2 := ({ s1 with current_node := some node_name }).add_history_entry
    ("Switched to node: " ++ node_name)
  match s2.task_plan with
  | some plan =>
    if plan.length ≠ 0 then
      let raw : PyNum := (PyNum.div ⟨s2.completed_nodes.length, 1⟩ ⟨plan.length, 1⟩).mul ⟨100, 1⟩
      let pct : PyNum := if PyNum.le ⟨95, 1⟩ raw then ⟨95, 1⟩ else raw
      { s2 with progress_percentage := pct }
    else s2
  | none => s2

/-- Stores a result for an agent (`AgentState.store_result`). -/
def AgentState.store_result (s : AgentState) (agent_name : String)
    (result : ResultValue) (result_type : String) : AgentState :=
  let inner := (alookup s.results agent_name).getD []
  ({ s with results := aupsert s.results agent_name (aupsert inner result_type result)
    }).add_history_entry ("Stored " ++ result_type ++ " result for " ++ agent_name)

/-- Reads a stored result (`AgentState.get_result`). -/
def AgentState.get_result (s : AgentState) (agent_name : String)
    (result_type : String) : Option ResultValue :=
  (alookup s.results agent_name).getD [] |> (alookup · result_type)

/-- Fresh mission state (`StateManager.create_mission_state`); the
uuid-generated mission id is a parameter, it is environment data. -/
def create_mission_state (mission_id crew_name goal : String) : AgentState :=
  { mission_id := mission_id, crew_name := crew_name, high_level_goal := goal
    status := "PENDING" }

/-! Crew / agent configuration (the `registry_config` dictionary read by
`AgentOrchestrator.__init__`). -/

/-- One conditional transition `(condition, target)` pair. -/
structure TransitionRule where
  condition : String
  target : String
deriving DecidableEq

/-- Per-node entry of the crew graph. -/
structure NodeConfig where
  transitions_to : Option String := none
  conditional_transitions : Option (List TransitionRule) := none
deriving DecidableEq

/-- The crew graph: entry point plus node table. -/
structure GraphConfig where
  entry_point : Option String := none
  nodes : List (String × NodeConfig) := []
deriving DecidableEq

/-- Crew configuration; absent keys keep their `.get` defaults applied at
the use sites, exactly as in the Python source. -/
structure CrewConfig where
  agents : List String := []
  supervisor_model : Option String := none
  graph : GraphConfig := {}
  max_iterations : Option Nat := none
  quality_threshold : Option PyNum := none
deriving DecidableEq

/-- Agent configuration from `registry.yaml`. -/
structure AgentConfig where
  role : String := ""
  goal : String := ""
  backstory : String := ""
  model : String := ""
  tools : List String := []
  output_schema : Option String := none
  input_schema : Option String := none
deriving DecidableEq

/-- The registry configuration handed to `AgentOrchestrator.__init__`. -/
structure RegistryConfig where
  crews : List (String × CrewConfig) := []
  agents : List (String × AgentConfig) := []

/-! Tool registry (`tools/registry.py`) with the Python call semantics
that decide how `tool_function(**tool_args)` behaves. -/

/-- Outcome of running a tool function body: a value, the raised
`HumanInterventionRequired` signal, or an ordinary exception. -/
inductive ToolOutcome where
  | ok (result : Json)
  | humanIntervention (request : HumanRequest)
  | exn (message : String)

/-- Outcome of an external (I/O performing) tool body: the web tools can
return a value or raise, but only `ask_human` raises the suspension
signal. -/
inductive ExtOutcome where
  | ok (result : Json)
  | exn (message : String)

/-- Behaviour oracle for the external web tools (`tools/web_tools.py`
performs network I/O): tool name and keyword arguments to outcome. -/
def ToolOracle := String → List (String × Json) → ExtOutcome

/-- Lifts an external outcome into a tool outcome. -/
def ExtOutcome.lift : ExtOutcome → ToolOutcome
  | .ok r => .ok r
  | .exn m => .exn m

/-- A Python tool function: its declared keyword parameters, the subset
without defaults, and its body.  `pyCall` below applies CPython call
binding to it. -/
structure PyToolFn where
  name : String
  params : List String
  required : List String
  run : ToolOracle → List (String × Json) → ToolOutcome

/-- CPython keyword-call semantics for `f(**kwargs)`: an unexpected
keyword raises `TypeError` before the body runs; then a missing required
argument raises `TypeError`; otherwise the body runs. -/
def pyCall (f : PyToolFn) (oracle : ToolOracle)
    (kwargs : List (String × Json)) : ToolOutcome :=
  match kwargs.find? (fun kv => decide (kv.1 ∉ f.params)) with
  | some kv =>
    .exn (f.name ++ "() got an unexpected keyword argument \x27" ++ kv.1 ++ "\x27")
  | none =>
    match f.required.find? (fun p => (alookup kwargs p).isNone) with
    | some p =>
      .exn (f.name ++ "() missing 1 required positional argument: \x27" ++ p ++ "\x27")
    | none => f.run oracle kwargs

/-- String projection of a JSON value. -/
def Json.asStr : Json → Option String
  | .str s => some s
  | _ => none

/-- Body of `registry.ask_human`: builds a `HumanRequest` with
`agent_name = "unknown"` and always raises `HumanInterventionRequired`.
A non-string argument would fail pydantic validation instead. -/
def askHumanRun (kwargs : List (String × Json)) : ToolOutcome :=
  let questionArg := (alookup kwargs "question").getD (Json.str "")
  let contextArg := (alookup kwargs "context").getD (Json.str "")
  let urgencyArg := (alookup kwargs "urgency").getD (Json.str "medium")
  let optionsArg := (alookup kwargs "options").getD Json.null
  let optionsVal : Option (Option (List String)) :=
    match optionsArg with
    | Json.null => some none
    | Json.arr xs =>
      if xs.all (fun x => x.asStr.isSome) then
        some (some (xs.filterMap Json.asStr))
      else none
    | _ => none
  match questionArg.asStr, contextArg.asStr, urgencyArg.asStr, optionsVal with
  | some q, some c, some u, some opts =>
    .humanIntervention
      { agent_name := "unknown", question := q, context := c
        options := opts, urgency := u }
  | _, _, _, _ => .exn "validation error for HumanRequest"

/-- The `ask_human` registry function (`registry.ask_human`): note that it
accepts no `agent_name` keyword. -/
def askHumanFn : PyToolFn :=
  { name := "ask_human"
    params := ["question", "context", "options", "urgency"]
    required := ["question"]
    run := fun _ kwargs => askHumanRun kwargs }

/-- An external web tool, dispatched to the tool oracle. -/
def webToolFn (name : String) (params required : List String) : PyToolFn :=
  { name := name, params := params, required := required
    run := fun oracle kwargs => (oracle name kwargs).lift }

/-- A placeholder tool whose Python lambda returns a fixed "simulated"
dictionary built from its single argument. -/
def simulatedToolFn (name param : String) (mk : Json → Json) : PyToolFn :=
  { name := name, params := [param], required := [param]
    run := fun _ kwargs => .ok (mk ((alookup kwargs param).getD Json.null)) }

/-- One registry entry (callable plus metadata; the parameter-schema
metadata only feeds prompt text and is not needed by any claim). -/
structure ToolRegEntry where
  fn : PyToolFn
  isAsync : Bool

/-- The `TOOL_REGISTRY` dictionary.  The Python literal writes the
`ask_human` key twice; dict semantics keep the first position with the
second value, and both map to the same function. -/
def TOOL_REGISTRY : List (String × ToolRegEntry) :=
  [ ("web_search", ⟨webToolFn "search_web" ["query", "max_results"] ["query"], true⟩)
  , ("fetch_url", ⟨webToolFn "fetch_url_content" ["url"] ["url"], true⟩)
  , ("analyze_content", ⟨webToolFn "analyze_content" ["content", "analysis_type"] ["content"], true⟩)
  , ("ask_human", ⟨askHumanFn, false⟩)
  , ("document_analysis", ⟨simulatedToolFn "<lambda>" "doc" (fun d =>
      Json.obj [("status", Json.str "simulated"), ("analysis", Json.str ("Dokument-Analyse für " ++ d.render))]), false⟩)
  , ("quality_check", ⟨simulatedToolFn "<lambda>" "content" (fun _ =>
      Json.obj [("status", Json.str "simulated"), ("quality_score", Json.num ⟨17, 20⟩),
        ("suggestions", Json.arr [Json.str "Verbesserung 1", Json.str "Verbesserung 2"])]), false⟩)
  , ("text_formatting", ⟨simulatedToolFn "<lambda>" "text" (fun t =>
      Json.obj [("status", Json.str "simulated"), ("formatted_text", Json.str ("Formatierter Text: " ++ t.render))]), false⟩)
  , ("grammar_check", ⟨simulatedToolFn "<lambda>" "text" (fun _ =>
      Json.obj [("status", Json.str "simulated"), ("corrections", Json.arr []), ("score", Json.num ⟨19, 20⟩)]), false⟩)
  , ("data_processing", ⟨simulatedToolFn "<lambda>" "data" (fun d =>
      Json.obj [("status", Json.str "simulated"), ("processed_data", Json.str ("Verarbeitete Daten: " ++ d.render))]), false⟩)
  , ("chart_generation", ⟨simulatedToolFn "<lambda>" "data" (fun _ =>
      Json.obj [("status", Json.str "simulated"), ("chart_url", Json.str "https://example.com/chart.png")]), false⟩) ]

/-! Tool-use loop pieces (`AgentOrchestrator._is_tool_call`,
`AgentOrchestrator._execute_tool_call`). -/

/-- Detects a tool call (`AgentOrchestrator._is_tool_call`): trimmed reply
starts with a brace, contains `tool_name`, and parses as a JSON object
with both `tool_name` and `args` keys. -/
def is_tool_call (response : String) : Bool :=
  let r := pytrim response
  if pyStartsWith r "\x7b" && containsSub r "tool_name" then
    match jsonParse r with
    | some (Json.obj fields) =>
      (alookup fields "tool_name").isSome && (alookup fields "args").isSome
    | some _ => false
    | none => false
  else false

/-- Result of `_execute_tool_call`: either a returned dictionary (normal
results and every structured error) or the re-raised suspension signal. -/
inductive ToolCallResult where
  | ok (result : Json)
  | suspended (request : HumanRequest)

/-- Builds the structured error dictionary `{"error": msg}`. -/
def errorDict (msg : String) : Json :=
  Json.obj [("error", Json.str msg)]

/-- The `agent_name` injection step of `_execute_tool_call`: for the
`ask_human` tool, when the model did not supply an `agent_name` argument,
one is added to the keyword arguments before the call. -/
def ask_human_arg_injection (tool_name : String) (kvs : List (String × Json))
    (agent_name : String) : List (String × Json) :=
  if tool_name = "ask_human" ∧ (alookup kvs "agent_name").isNone then
    kvs ++ [("agent_name", Json.str agent_name)]
  else kvs

/-- The generic `except Exception` tail of `_execute_tool_call`: appends
the `Tool error:` history entry and returns the error dictionary. -/
def toolCallFailure (state : AgentState) (msg : String) :
    AgentState × ToolCallResult :=
  let error_msg := "Tool execution failed: " ++ msg
  ((state.add_history_entry ("Tool error: " ++ error_msg)), .ok (errorDict error_msg))

/-- Executes one tool call (`AgentOrchestrator._execute_tool_call`).
Faithful points: the unknown-tool case returns a structured error; the
`agent_name` keyword is injected into the arguments of `ask_human` before
the call; a raised `HumanInterventionRequired` sets the mission status to
AWAITING_HUMAN_INPUT, stores the request and re-raises; `JSONDecodeError`
and every ordinary exception become `{"error": ...}` dictionaries.  The
free-text parts of CPython exception messages are abbreviated. -/
def execute_tool_call (oracle : ToolOracle) (tool_call_response : String)
    (state : AgentState) (agent_name : String) : AgentState × ToolCallResult :=
  match jsonParse (pytrim tool_call_response) with
  | none => (state, .ok (errorDict "Invalid JSON in tool call: Expecting value"))
  | some j =>
    match j.getKey "tool_name" with
    | none =>
      -- `tool_call['tool_name']` raises KeyError (or TypeError when the
      -- document is not an object); both land in the generic handler.
      toolCallFailure state "\x27tool_name\x27"
    | some tn =>
      match tn.asStr with
      | none =>
        -- a non-string name is simply not a registry key
        (state, .ok (Json.obj
          [ ("error", Json.str ("Tool \x27" ++ tn.render ++ "\x27 not found in registry"))
          , ("available_tools", Json.arr (TOOL_REGISTRY.map (fun kv => Json.str kv.1))) ]))
      | some tool_name =>
        let tool_args := (j.getKey "args").getD (Json.obj [])
        match alookup TOOL_REGISTRY tool_name with
        | none =>
          (state, .ok (Json.obj
            [ ("error", Json.str ("Tool \x27" ++ tool_name ++ "\x27 not found in registry"))
            , ("available_tools", Json.arr (TOOL_REGISTRY.map (fun kv => Json.str kv.1))) ]))
        | some entry =>
          let argsText := tool_args.render
          let state1 := state.add_history_entry
            ("Agent " ++ agent_name ++ " calling tool: " ++ tool_name ++ " with args: " ++ argsText)
          match tool_args with
          | Json.obj kvs =>
            let kvs1 := ask_human_arg_injection tool_name kvs agent_name
            (match pyCall entry.fn oracle kvs1 with
             | .ok r =>
               (state1.add_history_entry ("Tool " ++ tool_name ++ " completed successfully"), .ok r)
             | .humanIntervention req =>
               let req1 :=
                 if req.agent_name = "" ∨ req.agent_name = "unknown" then
                   { req with agent_name := agent_name }
                 else req
               let state2 := { state1 with
                 status := "AWAITING_HUMAN_INPUT", active_human_request := some req1 }
               let state3 := (state2.add_history_entry
                   ("🚦 Mission pausiert: " ++ agent_name ++ " benötigt menschliche Eingabe")).add_history_entry
                 ("📋 Frage: " ++ req1.question)
               (state3, .suspended req1)
             | .exn m => toolCallFailure state1 m)
          | _ =>
            -- `tool_function(**tool_args)` with a non-mapping raises TypeError
            toolCallFailure state1 "argument after ** must be a mapping"

/-! Pydantic validation of the typed result models, as invoked by
`_structure_agent_result` (`model_validate` / `model_validate_json`). -/

/-- Numeric projection of a JSON value. -/
def Json.asNum : Json → Option PyNum
  | .num q => some q
  | _ => none

/-- Integer projection of a JSON value (pydantic `int` coercion). -/
def Json.asInt : Json → Option Int
  | .num q => if q.den = 1 then some q.num else none
  | _ => none

/-- Boolean projection of a JSON value. -/
def Json.asBool : Json → Option Bool
  | .bool b => some b
  | _ => none

/-- String-list projection of a JSON value. -/
def Json.asStrList : Json → Option (List String)
  | .arr xs =>
    if xs.all (fun x => x.asStr.isSome) then some (xs.filterMap Json.asStr) else none
  | _ => none

/-- Reads an optional field with a default: absent keys take the default,
present keys must project. -/
def fieldOr {α : Type} (j : Json) (k : String) (proj : Json → Option α)
    (dflt : α) : Option α :=
  match j.getKey k with
  | none => some dflt
  | some v => proj v

/-- Parses a recommendation string into the `Recommendation` enum. -/
def parseRecommendation (s : String) : Option Recommendation :=
  if s = "publish" then some .publish
  else if s = "revise" then some .revise
  else if s = "research_more" then some .research_more
  else if s = "fail" then some .fail
  else none

/-- `QualityAssessment.model_validate`. -/
def validateQualityAssessment (j : Json) : Option QualityAssessment :=
  match (j.getKey "recommendation").bind Json.asStr with
  | none => none
  | some recStr =>
    match parseRecommendation recStr, (j.getKey "reasoning").bind Json.asStr,
        fieldOr j "strengths" Json.asStrList [],
        fieldOr j "issues_found" Json.asStrList [],
        fieldOr j "confidence_score" Json.asNum ⟨9, 10⟩ with
    | some recommendation, some reasoning, some strengths, some issues_found, some confidence_score =>
      if PyNum.le ⟨0, 1⟩ confidence_score ∧ PyNum.le confidence_score ⟨1, 1⟩ then
        some { recommendation := recommendation, reasoning := reasoning
               strengths := strengths, issues_found := issues_found
               confidence_score := confidence_score }
      else none
    | _, _, _, _, _ => none

/-- `QAReport.model_validate_json`. -/
def validateQAReport (j : Json) : Option QAReport :=
  match (j.getKey "overall_score").bind Json.asNum,
      (j.getKey "feedback_summary").bind Json.asStr,
      (j.getKey "meets_requirements").bind Json.asBool,
      (j.getKey "recommendation").bind Json.asStr,
      (j.getKey "estimated_completion").bind Json.asNum with
  | some overall_score, some feedback_summary, some meets_requirements,
      some recommendation, some estimated_completion =>
    (match fieldOr j "critical_issues" Json.asStrList [],
        fieldOr j "minor_issues" Json.asStrList [],
        fieldOr j "strengths" Json.asStrList [],
        fieldOr j "revision_count" Json.asInt 0 with
     | some critical_issues, some minor_issues, some strengths, some revision_count =>
       if PyNum.le ⟨0, 1⟩ overall_score ∧ PyNum.le overall_score ⟨1, 1⟩ ∧
           PyNum.le ⟨0, 1⟩ estimated_completion ∧ PyNum.le estimated_completion ⟨1, 1⟩ then
         some { overall_score := overall_score, critical_issues := critical_issues
                minor_issues := minor_issues, strengths := strengths
                feedback_summary := feedback_summary
                meets_requirements := meets_requirements
                recommendation := recommendation, revision_count := revision_count
                estimated_completion := estimated_completion }
       else none
     | _, _, _, _ => none)
  | _, _, _, _, _ => none

/-- `ResearchFinding.model_validate`. -/
def validateResearchFinding (j : Json) : Option ResearchFinding :=
  match (j.getKey "finding").bind Json.asStr, (j.getKey "source").bind Json.asStr,
      fieldOr j "relevance_score" Json.asNum ⟨4, 5⟩ with
  | some finding, some source, some relevance_score =>
    (match j.getKey "quote" with
     | none => some { finding := finding, source := source, quote := none
                      relevance_score := relevance_score }
     | some Json.null => some { finding := finding, source := source, quote := none
                                relevance_score := relevance_score }
     | some v =>
       (v.asStr.map fun q => { finding := finding, source := source, quote := some q
                               relevance_score := relevance_score }))
  | _, _, _ => none

/-- `ResearchReport.model_validate_json`. -/
def validateResearchReport (j : Json) : Option ResearchReport :=
  match (j.getKey "summary").bind Json.asStr, j.getKey "findings" with
  | some summary, some (Json.arr items) =>
    if items.all (fun it => (validateResearchFinding it).isSome) then
      (match fieldOr j "confidence_score" Json.asNum ⟨9, 10⟩,
          fieldOr j "research_scope" Json.asStr "general" with
       | some confidence_score, some research_scope =>
         some { summary := summary, findings := items.filterMap validateResearchFinding
                confidence_score := confidence_score, research_scope := research_scope }
       | _, _ => none)
    else none
  | _, _ => none

/-- `FinalReport.model_validate_json`. -/
def validateFinalReport (j : Json) : Option FinalReport :=
  match (j.getKey "title").bind Json.asStr, (j.getKey "content").bind Json.asStr,
      (j.getKey "references").bind Json.asStrList with
  | some title, some content, some references =>
    (match fieldOr j "word_count" Json.asInt 0, fieldOr j "quality_score" Json.asNum ⟨9, 10⟩ with
     | some wc, some quality_score =>
       some { title := title, content := content, references := references
              word_count := if (j.getKey "word_count").isSome then some wc else none
              quality_score := quality_score }
     | _, _ => none)
  | _, _, _ => none

/-- `TaskPlan(**task)` keyword construction with pydantic validation. -/
def validateTaskPlan (j : Json) : Option TaskPlan :=
  match (j.getKey "task_id").bind Json.asStr, (j.getKey "description").bind Json.asStr,
      (j.getKey "assigned_agent").bind Json.asStr,
      (j.getKey "expected_output").bind Json.asStr,
      fieldOr j "priority" Json.asInt 1 with
  | some task_id, some description, some assigned_agent, some expected_output, some priority =>
    some { task_id := task_id, description := description
           assigned_agent := assigned_agent, expected_output := expected_output
           priority := priority }
  | _, _, _, _, _ => none

/-! Result structuring (`_extract_json_from_response`,
`_structure_agent_result`). -/

/-- JSON extraction (`AgentOrchestrator._extract_json_from_response`).
The whole-response branch is modelled exactly: when the trimmed reply is
brace-delimited, parse it (a parse error there raises inside the `try`
and returns `None`, skipping the scans).  The two scan fallbacks (a
depth-one brace regex and fenced ```json blocks) are only reached on
replies mixing prose with JSON; no claim exercises them and they are
modelled by the conservative `none`. -/
def extract_json_from_response (response : String) : Option Json :=
  let r := pytrim response
  if pyStartsWith r "\x7b" ∧ pyEndsWith r "\x7d" then jsonParse r
  else none

/-- The hard-coded conservative verdict used when a QA agent returns no
parseable JSON. -/
def defaultFailVerdict : QualityAssessment :=
  { recommendation := .fail
    reasoning := "Agent konnte keine strukturierte Bewertung liefern"
    issues_found := ["Invalid JSON response from QA agent"]
    confidence_score := ⟨1, 10⟩ }

/-- Result structuring (`AgentOrchestrator._structure_agent_result`).
Any exception inside the `try` (pydantic validation failure, unknown
schema name) falls into the `except` and returns the raw response. -/
def structure_agent_result (response : String) (agent_config : AgentConfig) :
    ResultValue :=
  match agent_config.output_schema with
  | none => .text response
  | some output_schema =>
    if output_schema = "QualityAssessment" then
      match extract_json_from_response response with
      | some j =>
        (match validateQualityAssessment j with
         | some qa => .qa qa
         | none => .text response)
      | none => .qa defaultFailVerdict
    else if pyStartsWith (pytrim response) "\x7b" then
      match output_schema, jsonParse (pytrim response) with
      | "ResearchReport", some j =>
        ((validateResearchReport j).map ResultValue.research).getD (.text response)
      | "FinalReport", some j =>
        ((validateFinalReport j).map ResultValue.finalReport).getD (.text response)
      | "QAReport", some j =>
        ((validateQAReport j).map ResultValue.qaReport).getD (.text response)
      | _, _ => .text response
    else if output_schema = "ResearchReport" then
      .research { summary := if strLen response > 500 then response.take 500 ++ "..." else response
                  findings := [], confidence_score := ⟨7, 10⟩ }
    else if output_schema = "FinalReport" then
      .finalReport { title := "Generated Report", content := response, references := [] }
    else .text response

/-! Prompt construction.  The engine builds long German prompt templates;
they are consumed only by the Bridge oracle, so the renderings below keep
every datum that flows into a prompt but abbreviate the surrounding
template text (no claim depends on the literal wording). -/

/-- Rendering of a stored result for prompt context. -/
def ResultValue.render : ResultValue → String
  | .text s => s
  | .qa q => "QualityAssessment(" ++ q.recommendation.value ++ ", " ++ q.reasoning ++ ")"
  | .qaReport r => "QAReport(" ++ r.overall_score.render ++ ")"
  | .research r => "ResearchReport(" ++ r.summary ++ ")"
  | .finalReport r => "FinalReport(" ++ r.title ++ ")"
  | .json j => j.render

/-- Context section listing completed agents and their `output` results. -/
def previous_results_context (state : AgentState) : String :=
  String.intercalate "\n" (state.completed_nodes.filterMap (fun a =>
    (state.get_result a "output").map (fun r => a ++ ": " ++ r.render)))

/-- Agent prompt (`AgentOrchestrator._create_agent_prompt`, abridged). -/
def create_agent_prompt (agent_config : AgentConfig) (task_description : String)
    (state : AgentState) : String :=
  "Du bist ein " ++ agent_config.role ++ ". Ziel: " ++ agent_config.goal
    ++ ". Hintergrund: " ++ agent_config.backstory
    ++ "\nAUFGABE: " ++ task_description
    ++ "\nMISSION: " ++ state.high_level_goal ++ " (" ++ state.mission_id ++ ")"
    ++ "\nKONTEXT:\n" ++ previous_results_context state
    ++ "\nOUTPUT-FORMAT: " ++ (agent_config.output_schema.getD "Text")

/-- Planning prompt (`AgentOrchestrator._create_planning_prompt`, abridged). -/
def create_planning_prompt (registry : RegistryConfig) (goal : String)
    (agents : List String) (parameters : Option (List (String × Json))) : String :=
  let agents_info := agents.filterMap (fun a =>
    (alookup registry.agents a).map (fun cfg => "- " ++ a ++ ": " ++ cfg.role ++ " - " ++ cfg.goal))
  "Supervisor-Planung. ZIEL: " ++ goal
    ++ "\nVERFÜGBARE AGENTEN:\n" ++ String.intercalate "\n" agents_info
    ++ "\nPARAMETER: " ++ (Json.obj ((parameters).getD [])).render
    ++ "\nAntworte NUR mit dem JSON-Array."

/-- Synthesis prompt (`AgentOrchestrator._create_synthesis_prompt`, abridged). -/
def create_synthesis_prompt (goal : String)
    (results : List (String × ResultValue)) : String :=
  "Finale Synthese. ZIEL: " ++ goal ++ "\nERGEBNISSE:\n"
    ++ String.intercalate "\n" (results.map (fun p => p.1 ++ ": " ++ p.2.render))

/-- Continuation prompt after a human reply
(`AgentOrchestrator._create_continuation_prompt`, abridged).  Faithful
detail: the original question is read from `state.active_human_request`,
which `resume_mission` has already cleared, so the fallback text
"Unbekannte Frage" is what actually appears. -/
def create_continuation_prompt (agent_config : AgentConfig) (state : AgentState)
    (human_response : String) : String :=
  let original_question :=
    match state.active_human_request with
    | some req => req.question
    | none => "Unbekannte Frage"
  "Du bist ein " ++ agent_config.role ++ ". Ziel: " ++ agent_config.goal
    ++ "\nMISSION: " ++ state.high_level_goal ++ " (" ++ state.mission_id ++ ")"
    ++ "\nKONTEXT:\n" ++ previous_results_context state
    ++ "\nFrage: \"" ++ original_question ++ "\"\nAntwort: \"" ++ human_response
    ++ "\"\nSetze deine Aufgabe fort."

/-- Tool-enhanced prompt (`_create_tool_enhanced_prompt`, abridged): when
none of the declared tools is registered the original prompt is returned
unchanged. -/
def create_tool_enhanced_prompt (original_prompt : String)
    (agent_tools : List String) : String :=
  let available := agent_tools.filter (fun t => (alookup TOOL_REGISTRY t).isSome)
  if available.isEmpty then original_prompt
  else
    original_prompt ++ "\n\nVERFÜGBARE TOOLS:\n" ++ String.intercalate ", " available
      ++ "\nAntworte mit einem JSON-Objekt mit tool_name und args, oder mit deiner finalen Antwort."

/-- Prompt extension with a tool result (`_create_tool_result_prompt`):
the result rendering is truncated at 1000 characters. -/
def create_tool_result_prompt (original_prompt tool_call : String)
    (tool_result : Json) (available_tools : List String) : String :=
  let rendered := tool_result.render
  let result_summary :=
    if strLen rendered > 1000 then rendered.take 1000 ++ "... (gekürzt)" else rendered
  original_prompt ++ "\n\nTOOL-AUSFÜHRUNG:\nDu hast das Tool verwendet: " ++ tool_call
    ++ "\n\nTOOL-ERGEBNIS:\n" ++ result_summary
    ++ "\n\nVERFÜGBARE TOOLS: " ++ String.intercalate ", " available_tools

/-! The external collaborators: LLM Bridge and state repository. -/

/-- Outcome of one `LLMBridgeCore.bridge_message` call: a text reply or a
raised failure. -/
inductive BridgeResult where
  | ok (reply : String)
  | exn (message : String)

/-- Behaviour oracle for `LLMBridgeCore.bridge_message`: conversation id,
target model name and message map to a reply or a raised failure. -/
def BridgeOracle := String → String → String → BridgeResult

/-- The state repository (`IAgentStateRepository`), modelled as keyed
snapshots; `save` upserts under the mission id, like the in-memory and
Redis implementations. -/
def Repo := List (String × AgentState)

/-- `repository.save(state)`. -/
def Repo.save (repo : Repo) (state : AgentState) : Repo :=
  aupsert repo state.mission_id state

/-- `repository.get_by_id(mission_id)`. -/
def Repo.get_by_id (repo : Repo) (mission_id : String) : Option AgentState :=
  alookup repo mission_id

/-! Tool-use loop and agent execution
(`AgentOrchestrator._execute_agent_with_tools`,
`AgentOrchestrator._execute_agent`). -/

/-- Result of running one agent (with tools): a final reply, the
propagated suspension signal, or a propagated ordinary exception. -/
inductive AgentRunResult where
  | ok (response : String)
  | suspended (request : HumanRequest)
  | exn (message : String)

/-- The fixed tool-call bound of the tool-use loop. -/
def max_tool_calls : Nat := 5

/-- The `while tool_call_count < max_tool_calls` loop of
`_execute_agent_with_tools`; `remaining = max_tool_calls -
tool_call_count` drives the recursion, `remaining = 0` is the fallback
final call without tools. -/
def tool_use_loop (bridge : BridgeOracle) (oracle : ToolOracle)
    (mission_id agent_name model initial_prompt : String)
    (agent_tools : List String) : Nat → String → Nat → AgentState →
    AgentState × AgentRunResult
  | 0, _, _, state =>
    let state1 := state.add_history_entry
      ("Agent " ++ agent_name ++ " reached max tool calls (" ++ toString max_tool_calls ++ ")")
    let final_prompt := initial_prompt
      ++ "\n\nBitte gib deine finale Antwort basierend auf den bisher gesammelten Informationen. Verwende KEINE Tools mehr."
    (match bridge (mission_id ++ "_" ++ agent_name ++ "_final") model final_prompt with
     | .ok resp => (state1, .ok resp)
     | .exn m => (state1, .exn m))
  | Nat.succ rem, current_prompt, tool_call_count, state =>
    match bridge (mission_id ++ "_" ++ agent_name ++ "_tool_" ++ toString tool_call_count)
        model current_prompt with
    | .exn m => (state, .exn m)
    | .ok llm_response =>
      if is_tool_call llm_response then
        let count1 := tool_call_count + 1
        match execute_tool_call oracle llm_response state agent_name with
        | (state1, .suspended req) => (state1, .suspended req)
        | (state1, .ok tool_result) =>
          let next_prompt :=
            create_tool_result_prompt initial_prompt llm_response tool_result agent_tools
          let state2 := state1.add_history_entry
            ("Agent " ++ agent_name ++ " used tool, iteration " ++ toString count1)
          tool_use_loop bridge oracle mission_id agent_name model initial_prompt
            agent_tools rem next_prompt count1 state2
      else
        (state.add_history_entry
          ("Agent " ++ agent_name ++ " completed after " ++ toString tool_call_count ++ " tool calls"),
         .ok llm_response)

/-- Runs one agent with tool support (`_execute_agent_with_tools`): an
agent without declared tools is invoked exactly once. -/
def execute_agent_with_tools (bridge : BridgeOracle) (oracle : ToolOracle)
    (state : AgentState) (agent_name : String) (agent_config : AgentConfig)
    (initial_prompt : String) : AgentState × AgentRunResult :=
  if agent_config.tools.isEmpty then
    match bridge (state.mission_id ++ "_" ++ agent_name) agent_config.model initial_prompt with
    | .ok r => (state, .ok r)
    | .exn m => (state, .exn m)
  else
    let enhanced := create_tool_enhanced_prompt initial_prompt agent_config.tools
    tool_use_loop bridge oracle state.mission_id agent_name agent_config.model
      initial_prompt agent_config.tools max_tool_calls enhanced 0 state

/-- A propagated non-return outcome of a phase-internal call. -/
inductive PhaseExc where
  | suspended (request : HumanRequest)
  | exn (message : String)

/-- Task lookup for an agent (`AgentOrchestrator._find_task_for_agent`). -/
def find_task_for_agent (state : AgentState) (agent_name : String) : Option TaskPlan :=
  match state.task_plan with
  | none => none
  | some plan =>
    plan.find? (fun task =>
      task.assigned_agent = agent_name ∨ containsSub (pyToLower task.task_id) agent_name)

/-- Executes one graph node (`AgentOrchestrator._execute_agent`): finds
the task, builds the prompt, runs the tool-use loop, structures and
stores `output` and `raw` results; the suspension signal and ordinary
exceptions propagate (the latter after a history entry). -/
def execute_agent (registry : RegistryConfig) (bridge : BridgeOracle)
    (oracle : ToolOracle) (state : AgentState) (agent_name : String) :
    AgentState × Option PhaseExc :=
  match alookup registry.agents agent_name with
  | none => (state, some (.exn ("Agent \x27" ++ agent_name ++ "\x27 nicht in Registry gefunden")))
  | some agent_config =>
    let found := find_task_for_agent state agent_name
    let state0 := match found with
      | none => state.add_history_entry
          ("No specific task found for " ++ agent_name ++ ", using general assignment")
      | some _ => state
    let task_description := match found with
      | none => "Perform your role as " ++ agent_config.role ++ " for the goal: "
          ++ state.high_level_goal
      | some task => task.description
    let agent_prompt := create_agent_prompt agent_config task_description state0
    let state1 := state0.add_history_entry ("Executing agent: " ++ agent_name)
    match execute_agent_with_tools bridge oracle state1 agent_name agent_config agent_prompt with
    | (s2, .ok final_response) =>
      let structured := structure_agent_result final_response agent_config
      let s3 := (s2.store_result agent_name structured "output").store_result
        agent_name (.text final_response) "raw"
      (s3.add_history_entry ("Agent " ++ agent_name ++ " completed successfully"), none)
    | (s2, .suspended req) => (s2, some (.suspended req))
    | (s2, .exn m) =>
      (s2.add_history_entry ("Agent " ++ agent_name ++ " execution failed: " ++ m),
       some (.exn m))

/-! Conditional routing (`_handle_conditional_transitions`,
`_handle_quality_assessment_routing`,
`_handle_legacy_conditional_transitions`, `_parse_routing_response`). -/

/-- The fixed deterministic routing table (`recommendation_to_target`). -/
def recommendation_to_target (recommendation : String) : Option String :=
  if recommendation = "publish" then some "END"
  else if recommendation = "revise" then some "writer"
  else if recommendation = "research_more" then some "researcher"
  else if recommendation = "fail" then some "END"
  else none

/-- Body of `_handle_quality_assessment_routing` on the recommendation
string (the Python function projects `qa_result.recommendation.value`
first; the unknown branch is its written fallback).  The wording of the
confidence figure inside the history entry is abbreviated. -/
def qaRoutingOnString (recommendation : String) (qa_result : QualityAssessment)
    (state : AgentState) : AgentState × String :=
  match recommendation_to_target recommendation with
  | some next_target =>
    let s1 := state.add_history_entry
      ("QA-Entscheidung: " ++ recommendation ++ " → " ++ next_target
        ++ " | Begründung: " ++ qa_result.reasoning
        ++ " | Confidence: " ++ qa_result.confidence_score.render)
    let s2 := if qa_result.issues_found.isEmpty then s1
      else s1.add_history_entry ("QA-Issues: " ++ String.intercalate ", " qa_result.issues_found)
    (s2, next_target)
  | none =>
    (state.add_history_entry
      ("FEHLER: Unbekannte QA-Empfehlung \x27" ++ recommendation ++ "\x27 - beende Mission"),
     "END")

/-- Deterministic QA routing (`_handle_quality_assessment_routing`); the
declared transitions are accepted but never consulted, exactly as in the
source. -/
def handle_quality_assessment_routing (qa_result : QualityAssessment)
    (transitions : List TransitionRule) (state : AgentState) : AgentState × String :=
  let _ := transitions
  qaRoutingOnString qa_result.recommendation.value qa_result state

/-- Supervisor-reply matching (`AgentOrchestrator._parse_routing_response`):
case-insensitive substring search over the declared targets, falling back
to the first declared target, then to END. -/
def parse_routing_response (response : String) (transitions : List TransitionRule) : String :=
  let r := pyToLower (pytrim response)
  let valid_targets := transitions.map (fun t => pyToLower t.target)
  match valid_targets.find? (fun target => containsSub r target) with
  | some target =>
    (((transitions.find? (fun tr => pyToLower tr.target = target)).map
      (fun tr => tr.target)).getD
      (((transitions.head?).map (fun tr => tr.target)).getD "END"))
  | none => (((transitions.head?).map (fun tr => tr.target)).getD "END")

/-- Supervisor-arbitrated routing (`_handle_legacy_conditional_transitions`):
on any error the first declared target is the fallback. -/
def handle_legacy_conditional_transitions (bridge : BridgeOracle)
    (crew_config : CrewConfig) (state : AgentState) (current_agent : String)
    (transitions : List TransitionRule) : AgentState × String :=
  let supervisor_model := crew_config.supervisor_model.getD "gpt4o_via_or"
  let current_result := state.get_result current_agent "output"
  let routing_prompt := "Routing. AGENT: " ++ current_agent
    ++ " ERGEBNIS: " ++ (((current_result).map ResultValue.render).getD "None")
    ++ " OPTIONEN: " ++ String.intercalate "; "
      (transitions.map (fun t => t.condition ++ " -> " ++ t.target))
  match bridge (state.mission_id ++ "_routing") supervisor_model routing_prompt with
  | .ok routing_response =>
    let next_agent := parse_routing_response routing_response transitions
    (state.add_history_entry
      ("Legacy Supervisor routing: " ++ current_agent ++ " -> " ++ next_agent),
     next_agent)
  | .exn _ =>
    match transitions.head? with
    | some tr =>
      (state.add_history_entry ("Routing fallback: " ++ current_agent ++ " -> " ++ tr.target),
       tr.target)
    | none => (state, "END")

/-- Router dispatch (`_handle_conditional_transitions`): a stored
`QualityAssessment` output takes the deterministic path, everything else
is supervisor-arbitrated. -/
def handle_conditional_transitions (bridge : BridgeOracle) (crew_config : CrewConfig)
    (state : AgentState) (current_agent : String)
    (transitions : List TransitionRule) : AgentState × String :=
  match state.get_result current_agent "output" with
  | some (.qa qa_result) => handle_quality_assessment_routing qa_result transitions state
  | _ => handle_legacy_conditional_transitions bridge crew_config state current_agent transitions

/-! Quality-threshold early exit (`AgentOrchestrator._check_quality_threshold`). -/

/-- Score lookup inside one entry of `state.results.items()`: the value
there is the result-kind dictionary, `hasattr(dict, "overall_score")` is
False, and the dict branch looks the literal key up.  A non-numeric value
under that key would raise on comparison; no code path stores one. -/
def resultEntryScore (inner : List (String × ResultValue)) : Option PyNum :=
  match alookup inner "overall_score" with
  | some (.json (Json.num q)) => some q
  | _ => none

/-- The quality-threshold check (`_check_quality_threshold`): default
threshold 0.8, scans `results.items()` for agent names containing "qa",
takes the last and reads `overall_score` from the result-kind dictionary. -/
def check_quality_threshold (state : AgentState) (crew_config : CrewConfig) : Bool :=
  let quality_threshold := crew_config.quality_threshold.getD ⟨4, 5⟩
  let qa_results := state.results.filter (fun p => containsSub (pyToLower p.1) "qa")
  match qa_results.getLast? with
  | none => false
  | some p =>
    match resultEntryScore p.2 with
    | some score => PyNum.le quality_threshold score
    | none => false

/-! The graph walk (`AgentOrchestrator._execution_phase`). -/

/-- Loop state of the `while current_node and current_node != "END"` walk. -/
structure WalkState where
  state : AgentState
  current : Option String
  iteration_count : Nat

/-- Outcome of one iteration of the walk body. -/
inductive StepResult where
  | next (ws : WalkState)
  | finished (state : AgentState)
  | suspended (state : AgentState) (request : HumanRequest)
  | exn (state : AgentState) (message : String)

/-- Final outcome of the execution phase; `fuelOut` is a model artifact
standing for a walk still running after the given number of iterations
(the Python loop is unbounded). -/
inductive PhaseResult where
  | done
  | suspended (request : HumanRequest)
  | exn (message : String)
  | fuelOut (ws : WalkState)

/-- One iteration of the walk (`_execution_phase` loop body): mark the
current node, enforce the iteration cap, run the agent (persisting after
it), evaluate the qa-name-triggered quality-threshold early exit, then
pick the next node — conditional transitions count loop-backs into
completed nodes, the plain `transitions_to` branch does not. -/
def execution_step (registry : RegistryConfig) (bridge : BridgeOracle)
    (oracle : ToolOracle) (crew_config : CrewConfig) (repo : Repo)
    (ws : WalkState) : Repo × StepResult :=
  match ws.current with
  | none => (repo, .finished ws.state)
  | some current_node =>
    -- `while current_node and current_node != "END"`; "" is falsy
    if current_node = "END" ∨ current_node = "" then (repo, .finished ws.state)
    else
      let max_iterations := crew_config.max_iterations.getD 3
      let s1 := ws.state.set_current_node current_node
      if ws.iteration_count ≥ max_iterations then
        (repo, .finished (s1.add_history_entry
          ("Maximum iterations (" ++ toString max_iterations ++ ") reached. Forcing completion.")))
      else
        match execute_agent registry bridge oracle s1 current_node with
        | (s2, some (.suspended req)) => (repo.save s2, .suspended s2 req)
        | (s2, some (.exn m)) => (repo, .exn s2 m)
        | (s2, none) =>
          let repo1 := repo.save s2
          if containsSub (pyToLower current_node) "qa" ∧ check_quality_threshold s2 crew_config then
            (repo1, .finished (s2.add_history_entry "Quality threshold reached. Mission completed."))
          else
            let node_config := (alookup crew_config.graph.nodes current_node).getD {}
            match node_config.conditional_transitions with
            | some transitions =>
              let routed := handle_conditional_transitions bridge crew_config s2
                current_node transitions
              let s3 := routed.1
              let next_node := routed.2
              if next_node ∈ s3.completed_nodes then
                let ic := ws.iteration_count + 1
                (repo1, .next ⟨s3.add_history_entry
                  ("Feedback loop iteration " ++ toString ic ++ ": returning to " ++ next_node),
                  some next_node, ic⟩)
              else (repo1, .next ⟨s3, some next_node, ws.iteration_count⟩)
            | none => (repo1, .next ⟨s2, node_config.transitions_to, ws.iteration_count⟩)

/-- The walk driver: iterates `execution_step` until the loop ends, the
suspension signal or an exception propagates, or the fuel budget is
spent.  A normal loop exit appends the closing history entry. -/
def execution_loop (registry : RegistryConfig) (bridge : BridgeOracle)
    (oracle : ToolOracle) (crew_config : CrewConfig) :
    Nat → Repo → WalkState → Repo × AgentState × PhaseResult
  | 0, repo, ws => (repo, ws.state, .fuelOut ws)
  | Nat.succ fuel, repo, ws =>
    match execution_step registry bridge oracle crew_config repo ws with
    | (repo1, .next ws1) => execution_loop registry bridge oracle crew_config fuel repo1 ws1
    | (repo1, .finished s) => (repo1, s.add_history_entry "Execution phase completed", .done)
    | (repo1, .suspended s req) => (repo1, s, .suspended req)
    | (repo1, .exn s m) => (repo1, s, .exn m)

/-- Phase 2 (`AgentOrchestrator._execution_phase`): mark the start of
execution and walk the graph from the entry point. -/
def execution_phase (registry : RegistryConfig) (bridge : BridgeOracle)
    (oracle : ToolOracle) (fuel : Nat) (state : AgentState)
    (crew_config : CrewConfig) (repo : Repo) : Repo × AgentState × PhaseResult :=
  execution_loop registry bridge oracle crew_config fuel repo
    ⟨state.start_execution, crew_config.graph.entry_point, 0⟩

/-! Planning (`_parse_planning_response`, `_planning_phase`). -/

/-- The hard-coded fallback plan returned on a parse failure. -/
def fallback_plan_data : Json :=
  Json.arr [Json.obj
    [ ("task_id", Json.str "fallback_task_1")
    , ("description", Json.str "Perform research and analysis")
    , ("assigned_agent", Json.str "researcher")
    , ("expected_output", Json.str "ResearchReport")
    , ("priority", Json.num 1) ]]

/-- Markdown code-fence stripping, the preamble of
`_parse_planning_response`. -/
def strip_code_fences (response : String) : String :=
  if containsSub response "```json" then
    (pySplitOn ((pySplitOn response "```json").getD 1 "") "```").headD ""
  else if containsSub response "```" then
    (pySplitOn ((pySplitOn response "```").getD 1 "") "```").headD ""
  else response

/-- Parses the supervisor planning reply
(`AgentOrchestrator._parse_planning_response`): strip fences, parse JSON,
and fall back to the single-task plan on `JSONDecodeError`. -/
def parse_planning_response (response : String) : Json :=
  match jsonParse (pytrim (strip_code_fences response)) with
  | some j => j
  | none => fallback_plan_data

/-- `[TaskPlan(**task) for task in plan_data]`: requires an array of
valid task dictionaries, any other shape raises inside `_planning_phase`. -/
def tasksFromJson (j : Json) : Option (List TaskPlan) :=
  match j with
  | Json.arr items =>
    if items.all (fun it => (validateTaskPlan it).isSome) then
      some (items.filterMap validateTaskPlan)
    else none
  | _ => none

/-- Phase 1 (`AgentOrchestrator._planning_phase`): every exception inside
it is re-raised wrapped as `Planning phase failed: ...`. -/
def planning_phase (registry : RegistryConfig) (bridge : BridgeOracle)
    (state : AgentState) (crew_config : CrewConfig)
    (parameters : Option (List (String × Json))) : AgentState × Option String :=
  let s0 := ({ state with status := "PLANNING" }).add_history_entry
    "Starting planning phase with supervisor"
  let supervisor_model := crew_config.supervisor_model.getD "gpt4o_via_or"
  let planning_prompt :=
    create_planning_prompt registry s0.high_level_goal crew_config.agents parameters
  match bridge (s0.mission_id ++ "_planning") supervisor_model planning_prompt with
  | .exn m => (s0, some ("Planning phase failed: " ++ m))
  | .ok plan_response =>
    match tasksFromJson (parse_planning_response plan_response) with
    | none => (s0, some "Planning phase failed: validation error for TaskPlan")
    | some tasks =>
      (({ s0 with task_plan := some tasks }).add_history_entry
        ("Created plan with " ++ toString tasks.length ++ " tasks"), none)

/-- Phase 3 (`AgentOrchestrator._synthesis_phase`): collects the `output`
results of the completed nodes and asks the supervisor for a synthesis;
a failure is logged into history and swallowed. -/
def synthesis_phase (bridge : BridgeOracle) (state : AgentState)
    (crew_config : CrewConfig) : AgentState :=
  let s0 := state.add_history_entry "Starting synthesis phase"
  let supervisor_model := crew_config.supervisor_model.getD "gpt4o_via_or"
  let all_results := s0.completed_nodes.filterMap (fun a =>
    (s0.get_result a "output").map (fun r => (a, r)))
  let synthesis_prompt := create_synthesis_prompt s0.high_level_goal all_results
  match bridge (s0.mission_id ++ "_synthesis") supervisor_model synthesis_prompt with
  | .ok final_synthesis =>
    (s0.store_result "supervisor" (.text final_synthesis) "final_synthesis").add_history_entry
      "Synthesis phase completed"
  | .exn m => s0.add_history_entry ("Synthesis failed: " ++ m)

/-! The Mission Orchestrator boundary (`execute_mission`, `resume_mission`). -/

/-- What `execute_mission` does for its caller: return a state, re-raise
an exception (message and the state it left behind), raise before any
state exists (unknown crew / missing repository), or — model artifact —
run out of walk fuel. -/
inductive MissionOutcome where
  | returned (state : AgentState)
  | raised (message : String) (state : AgentState)
  | invalid (message : String)
  | fuelOut (state : AgentState)

/-- Top-level mission execution (`AgentOrchestrator.execute_mission`).
The generated mission id is passed in; saves happen at every phase
boundary; the suspension signal is converted into a normal return; any
other exception is recorded via `mark_error`, persisted and re-raised. -/
def execute_mission (registry : RegistryConfig) (bridge : BridgeOracle)
    (oracle : ToolOracle) (fuel : Nat) (mission_id crew_name goal : String)
    (parameters : Option (List (String × Json))) (repo : Repo) :
    Repo × MissionOutcome :=
  match alookup registry.crews crew_name with
  | none => (repo, .invalid ("Crew \x27" ++ crew_name ++ "\x27 nicht in Registry gefunden"))
  | some crew_config =>
    let state := (create_mission_state mission_id crew_name goal).add_history_entry
      ("Mission \x27" ++ mission_id ++ "\x27 created.")
    let repo0 := repo.save state
    match planning_phase registry bridge state crew_config parameters with
    | (s1, some m) =>
      let s2 := s1.mark_error ("Mission execution failed: " ++ m)
      (repo0.save s2, .raised m s2)
    | (s1, none) =>
      let repo1 := repo0.save s1
      match execution_phase registry bridge oracle fuel s1 crew_config repo1 with
      | (repo2, s2, .suspended _) => (repo2.save s2, .returned s2)
      | (repo2, s2, .exn m) =>
        let s3 := s2.mark_error ("Mission execution failed: " ++ m)
        (repo2.save s3, .raised m s3)
      | (repo2, s2, .fuelOut _) => (repo2, .fuelOut s2)
      | (repo2, s2, .done) =>
        let s3 := synthesis_phase bridge s2 crew_config
        let repo3 := repo2.save s3
        let s4 := s3.complete_execution
        (repo3.save s4, .returned s4)

/-- What `resume_mission` does for its caller. -/
inductive ResumeOutcome where
  | returned (state : AgentState)
  | raised (message : String)
  | fuelOut (state : AgentState)

/-- The outer `except Exception` of `resume_mission`: record the failure,
persist, re-raise the original exception. -/
def resumeFailure (repo : Repo) (state : AgentState) (m : String) :
    Repo × ResumeOutcome :=
  let s := state.mark_error ("Mission resume failed: " ++ m)
  (repo.save s, .raised m)

/-- Continues the requesting agent with the human reply
(`AgentOrchestrator._continue_agent_with_human_response`). -/
def continue_agent_with_human_response (registry : RegistryConfig)
    (bridge : BridgeOracle) (oracle : ToolOracle) (state : AgentState)
    (agent_name human_response : String) : AgentState × Option PhaseExc :=
  match alookup registry.agents agent_name with
  | none => (state, some (.exn ("Agent \x27" ++ agent_name ++ "\x27 nicht in Registry gefunden")))
  | some agent_config =>
    let continuation_prompt := create_continuation_prompt agent_config state human_response
    let s1 := state.add_history_entry
      ("Continuing agent " ++ agent_name ++ " with human response")
    match execute_agent_with_tools bridge oracle s1 agent_name agent_config
        continuation_prompt with
    | (s2, .ok final_response) =>
      let structured := structure_agent_result final_response agent_config
      let s3 := (s2.store_result agent_name structured "output").store_result
        agent_name (.text final_response) "raw"
      (s3.add_history_entry ("Agent " ++ agent_name ++ " continued successfully with human input"),
       none)
    | (s2, .suspended req) => (s2, some (.suspended req))
    | (s2, .exn m) =>
      (s2.add_history_entry ("Agent " ++ agent_name ++ " continuation failed: " ++ m),
       some (.exn m))

/-- Resumes a suspended mission (`AgentOrchestrator.resume_mission`):
validate, record the human reply as a `human_response` result, clear the
request, set RUNNING, persist, re-invoke the requesting agent, then run
the execution phase again (which starts at the graph entry point),
synthesis and completion; a fresh suspension is returned normally; other
exceptions are recorded and re-raised. -/
def resume_mission (registry : RegistryConfig) (bridge : BridgeOracle)
    (oracle : ToolOracle) (fuel : Nat) (mission_id human_response : String)
    (repo : Repo) : Repo × ResumeOutcome :=
  match repo.get_by_id mission_id with
  | none => (repo, .raised ("Mission \x27" ++ mission_id ++ "\x27 nicht gefunden"))
  | some state =>
    if state.status ≠ "AWAITING_HUMAN_INPUT" then
      (repo, .raised ("Mission \x27" ++ mission_id
        ++ "\x27 wartet nicht auf menschliche Eingabe (Status: " ++ state.status ++ ")"))
    else
      match state.active_human_request with
      | none => (repo, .raised ("Mission \x27" ++ mission_id ++ "\x27 hat keine aktive Human-Request"))
      | some req =>
        let requesting_agent := req.agent_name
        -- the stored tool result also carries a wall-clock "timestamp"
        -- key, omitted here
        let tool_result := Json.obj
          [ ("status", Json.str "human_input_received")
          , ("response", Json.str human_response)
          , ("original_question", Json.str req.question) ]
        let s1 := state.store_result requesting_agent (.json tool_result) "human_response"
        let s2 := ({ s1 with status := "RUNNING", active_human_request := none
          }).add_history_entry
          ("🤝 Mission resumed with human response: " ++ human_response.take 100 ++ "...")
        let repo1 := repo.save s2
        match alookup registry.crews s2.crew_name with
        | none => resumeFailure repo1 s2 ("Crew \x27" ++ s2.crew_name ++ "\x27 nicht in Registry gefunden")
        | some crew_config =>
          match continue_agent_with_human_response registry bridge oracle s2
              requesting_agent human_response with
          | (s3, some (.suspended _)) => (repo1.save s3, .returned s3)
          | (s3, some (.exn m)) => resumeFailure repo1 s3 m
          | (s3, none) =>
            let repo2 := repo1.save s3
            match execution_phase registry bridge oracle fuel s3 crew_config repo2 with
            | (repo3, s4, .suspended _) => (repo3.save s4, .returned s4)
            | (repo3, s4, .exn m) => resumeFailure repo3 s4 m
            | (repo3, s4, .fuelOut _) => (repo3, .fuelOut s4)
            | (repo3, s4, .done) =>
              if s4.status = "RUNNING" then
                let s5 := synthesis_phase bridge s4 crew_config
                let repo4 := repo3.save s5
                let s6 := s5.complete_execution
                (repo4.save s6, .returned s6)
              else (repo3, .returned s4)

/-! Outcome projections used to state run-level observations. -/

/-- The message and final state of a re-raised mission failure. -/
def missionRaised : MissionOutcome → Option (String × AgentState)
  | .raised m s => some (m, s)
  | _ => none

/-- The state a completed or suspended mission returns to its caller. -/
def missionReturned : MissionOutcome → Option AgentState
  | .returned s => some s
  | _ => none

/-- The state a resumed mission returns to its caller. -/
def resumeReturned : ResumeOutcome → Option AgentState
  | .returned s => some s
  | _ => none

/-- Whether `resume_mission` raised. -/
def resumeRaised : ResumeOutcome → Bool
  | .raised _ => true
  | _ => false

/-- The loop-iteration counter of a walk that is still running when the
fuel budget ends. -/
def phaseIterCount : PhaseResult → Option Nat
  | .fuelOut ws => some ws.iteration_count
  | _ => none

/-! Concrete fixtures: a small agent roster and crews exercising each
control path.  They are shared by several claim theorems. -/

/-- Demo agent roster: plain text agents plus two QA variants. -/
def demoAgents : List (String × AgentConfig) :=
  [ ("researcher", { role := "Researcher", goal := "research", backstory := "r", model := "model_r" })
  , ("writer", { role := "Writer", goal := "write", backstory := "w", model := "model_w" })
  , ("qa_checker", { role := "QA", goal := "check", backstory := "q", model := "model_q"
                     output_schema := some "QualityAssessment" })
  , ("qa_scorer", { role := "QA", goal := "score", backstory := "q", model := "model_q"
                    output_schema := some "QAReport" }) ]

/-- Crew `crew1`: single researcher node transitioning straight to END. -/
def demoRegistry : RegistryConfig :=
  { crews := [("crew1",
      { agents := ["researcher"]
        supervisor_model := some "sup"
        graph := { entry_point := some "researcher"
                   nodes := [("researcher", { transitions_to := some "END" })] } })]
    agents := demoAgents }

/-- A tool oracle whose web tools always fail (no network). -/
def noTools : ToolOracle := fun _ _ => ExtOutcome.exn "offline"

/-- A valid one-task planning reply assigning `researcher`. -/
def planJsonOne : String :=
  "[\x7b\"task_id\": \"t1\", \"description\": \"Research G\", \"assigned_agent\": \"researcher\", \"expected_output\": \"ResearchReport\", \"priority\": 1\x7d]"

/-- Bridge oracle for the end-to-end scenario: a fixed plan, a researcher
reply `t` and a synthesis reply `u`. -/
def oracleEndToEnd (t u : String) : BridgeOracle := fun cid _ _ =>
  if cid = "m1_planning" then .ok planJsonOne
  else if cid = "m1_researcher" then .ok t
  else .ok u

/-- Bridge oracle raising at the planning conversation. -/
def planFailOracle (m : String) : BridgeOracle := fun cid _ _ =>
  if cid = "m1_planning" then .exn m else .ok "text"

/-- Bridge oracle raising at the researcher agent conversation. -/
def execFailOracle (m : String) : BridgeOracle := fun cid _ _ =>
  if cid = "m1_planning" then .ok planJsonOne
  else if cid = "m1_researcher" then .exn m
  else .ok "text"

/-- Bridge oracle raising only at the synthesis conversation. -/
def synthFailOracle (m : String) : BridgeOracle := fun cid _ _ =>
  if cid = "m1_planning" then .ok planJsonOne
  else if cid = "m1_synthesis" then .exn m
  else .ok "text"

/-- Crew `crew2`: researcher → writer → END, used for resumption. -/
def resumeRegistry : RegistryConfig :=
  { crews := [("crew2",
      { agents := ["researcher", "writer"]
        supervisor_model := some "sup"
        graph := { entry_point := some "researcher"
                   nodes := [ ("researcher", { transitions_to := some "writer" })
                            , ("writer", { transitions_to := some "END" }) ] } })]
    agents := demoAgents }

/-- A mission suspended while `writer` (whose configured successor is END)
awaits a human reply. -/
def suspendedState : AgentState :=
  { mission_id := "m2", crew_name := "crew2", high_level_goal := "G"
    status := "AWAITING_HUMAN_INPUT"
    current_node := some "writer"
    completed_nodes := ["researcher"]
    results := [("researcher", [("output", .text "r-out")])]
    active_human_request := some { agent_name := "writer", question := "Which tone?" } }

/-- Bridge oracle for the resumption scenario. -/
def oracleResume : BridgeOracle := fun cid _ _ =>
  if cid = "m2_writer" then .ok "w-out"
  else if cid = "m2_researcher" then .ok "r-out2"
  else .ok "synth"

/-- The state returned by resuming `suspendedState` with the demo oracle. -/
def resumedFinalState : AgentState :=
  ((resumeReturned (resume_mission resumeRegistry oracleResume noTools 10 "m2"
    "Use a formal tone" [("m2", suspendedState)]).2).getD default)

/-- Crew `crew3`: writer → qa_checker with conditional transitions looping
back to writer on `revise`. -/
def loopRegistry : RegistryConfig :=
  { crews := [("crew3",
      { agents := ["writer", "qa_checker"]
        supervisor_model := some "sup"
        graph := { entry_point := some "writer"
                   nodes := [ ("writer", { transitions_to := some "qa_checker" })
                            , ("qa_checker", { conditional_transitions := some [⟨"revise", "writer"⟩, ⟨"publish", "END"⟩] }) ] } })]
    agents := demoAgents }

/-- A QA reply that always asks for revision. -/
def reviseJson : String :=
  "\x7b\"recommendation\": \"revise\", \"reasoning\": \"needs work\", \"confidence_score\": 0.5\x7d"

/-- Bridge oracle for the feedback-loop scenario. -/
def oracleLoop : BridgeOracle := fun cid _ _ =>
  if cid = "m3_planning" then .ok "garbage"
  else if cid = "m3_qa_checker" then .ok reviseJson
  else .ok "text"

/-- The final state of the feedback-loop mission. -/
def loopFinalState : AgentState :=
  ((missionReturned (execute_mission loopRegistry oracleLoop noTools 30 "m3" "crew3"
    "G" none []).2).getD default)

/-- Crew `crew4`: an unconditional two-node cycle researcher ↔ writer. -/
def cycleRegistry : RegistryConfig :=
  { crews := [("crew4",
      { agents := ["researcher", "writer"]
        supervisor_model := some "sup"
        graph := { entry_point := some "researcher"
                   nodes := [ ("researcher", { transitions_to := some "writer" })
                            , ("writer", { transitions_to := some "researcher" }) ] } })]
    agents := demoAgents }

/-- Bridge oracle for the unconditional cycle. -/
def oracleCycle : BridgeOracle := fun cid _ _ =>
  if cid = "m4_planning" then .ok "garbage" else .ok "text"

/-- The `crew4` configuration record. -/
def crew4Config : CrewConfig := (alookup cycleRegistry.crews "crew4").getD {}

/-- Nine iterations of the unconditional cycle walk. -/
def cycleWalk : Repo × AgentState × PhaseResult :=
  execution_phase cycleRegistry oracleCycle noTools 9
    { mission_id := "m4", crew_name := "crew4", high_level_goal := "G" }
    crew4Config []

/-- Crew `crew5`: a qa-named scoring node (output schema `QAReport`)
followed by a writer, with a declared quality threshold of 0.85. -/
def scoreRegistry : RegistryConfig :=
  { crews := [("crew5",
      { agents := ["qa_scorer", "writer"]
        supervisor_model := some "sup"
        quality_threshold := some ⟨17, 20⟩
        graph := { entry_point := some "qa_scorer"
                   nodes := [ ("qa_scorer", { transitions_to := some "writer" })
                            , ("writer", { transitions_to := some "END" }) ] } })]
    agents := demoAgents }

/-- A QA report with overall score 0.95, far above the 0.85 threshold. -/
def qaReportJson : String :=
  "\x7b\"overall_score\": 0.95, \"feedback_summary\": \"good\", \"meets_requirements\": true, \"recommendation\": \"publish\", \"estimated_completion\": 1.0\x7d"

/-- Bridge oracle for the quality-threshold scenario. -/
def oracleScore : BridgeOracle := fun cid _ _ =>
  if cid = "m5_planning" then .ok "garbage"
  else if cid = "m5_qa_scorer" then .ok qaReportJson
  else .ok "text"

/-- The `crew5` configuration record. -/
def crew5Config : CrewConfig := (alookup scoreRegistry.crews "crew5").getD {}

/-- The final state of the quality-threshold mission. -/
def scoreFinalState : AgentState :=
  ((missionReturned (execute_mission scoreRegistry oracleScore noTools 10 "m5" "crew5"
    "G" none []).2).getD default)

/-- A model reply invoking `ask_human` with only a question argument. -/
def askHumanCallText : String :=
  "\x7b\"tool_name\": \"ask_human\", \"args\": \x7b\"question\": \"Need help\"\x7d\x7d"

/-- A running mission state used for direct tool-call evaluation. -/
def runningState : AgentState :=
  { create_mission_state "m6" "crew1" "G" with status := "RUNNING" }

/-- The final state of the end-to-end mission with researcher reply `t`
and synthesis reply `u`. -/
def endToEndState (t u : String) : AgentState :=
  ((missionReturned (execute_mission demoRegistry (oracleEndToEnd t u) noTools 10 "m1"
    "crew1" "G" none []).2).getD default)

/-- A constant-reply bridge oracle. -/
def constOracle (resp : String) : BridgeOracle := fun _ _ _ => .ok resp

/-- The state of the mission whose synthesis call fails. -/
def synthFailedState : AgentState :=
  ((missionReturned (execute_mission demoRegistry (synthFailOracle "boom") noTools 10
    "m1" "crew1" "G" none []).2).getD default)

/-- A revise verdict used by the routing theorems. -/
def qaRevise : QualityAssessment :=
  { recommendation := .revise, reasoning := "needs work", confidence_score := ⟨1, 2⟩ }

/-- A state holding `qaRevise` as the `qa_checker` output. -/
def qaWitState : AgentState :=
  { mission_id := "m8", crew_name := "crew3", high_level_goal := "G"
    status := "RUNNING"
    results := [("qa_checker", [("output", .qa qaRevise)])] }

/-- The `crew3` configuration record. -/
def crew3Config : CrewConfig := (alookup loopRegistry.crews "crew3").getD {}

/-- The conditional transitions declared on `qa_checker` in `crew3`. -/
def loopTransitions : List TransitionRule :=
  [⟨"revise", "writer"⟩, ⟨"publish", "END"⟩]

/-- A mid-walk state: `writer` has just produced its output and is the
current node, about to hand over to `qa_checker`. -/
def preLoopState : AgentState :=
  { mission_id := "m3", crew_name := "crew3", high_level_goal := "G"
    status := "RUNNING"
    current_node := some "writer"
    results := [("writer", [("output", .text "text"), ("raw", .text "text")])] }

/-! Claim theorems. -/

/-- C1: the claim says a raised `ask_human` suspension propagates so that
the mission suspends (AWAITING_HUMAN_INPUT, stored request, persisted,
returned).  The code's own docstrings state `ask_human` always raises the
signal, and `_execute_tool_call` is written to convert it into a
suspension — but the same function first injects an `agent_name` keyword
that `ask_human` does not accept, so CPython raises `TypeError` before
the tool body runs: the call produces a structured error dictionary, the
status stays RUNNING and no request is stored.  The last conjunct
evidences that `ask_human` invoked with its declared arguments does raise
the signal: the injection is the slip. -/
theorem C1_ask_human_suspension_never_fires :
    (execute_tool_call noTools askHumanCallText runningState "writer").2 =
      .ok (errorDict "Tool execution failed: ask_human() got an unexpected keyword argument \x27agent_name\x27")
    ∧ (execute_tool_call noTools askHumanCallText runningState "writer").1.status = "RUNNING"
    ∧ (execute_tool_call noTools askHumanCallText runningState "writer").1.active_human_request = none
    ∧ askHumanRun [("question", Json.str "Need help")] =
        .humanIntervention { agent_name := "unknown", question := "Need help" } :=
  ⟨rfl, rfl, rfl, rfl⟩

/-- C2 (counterexample): the mission is suspended at `writer`, whose
configured successor is END, so under the claim the resumed walk would
execute no further node; resuming in fact executes `researcher` (the
graph entry point) again. -/
theorem C2_counterexample :
    (resume_mission resumeRegistry oracleResume noTools 10 "m2" "Use a formal tone"
        [("m2", suspendedState)]).2 = .returned resumedFinalState
    ∧ countOcc resumedFinalState.history "Executing agent: researcher" = 1
    ∧ countOcc resumedFinalState.history "Switched to node: researcher" = 1
    ∧ resumedFinalState.status = "COMPLETED" :=
  ⟨rfl, rfl, rfl, rfl⟩

/-- C2 (amended): `resume_mission` records the human answer as a
`human_response` result, re-invokes the requesting agent with the
continuation prompt, and then re-runs the graph executor from the graph
entry point — re-executing already completed nodes — before synthesis
and completion.  The full post-resume history shows the order. -/
theorem C2_amended_walk_restarts_at_entry :
    resumedFinalState.history =
      [ "Stored human_response result for writer"
      , "🤝 Mission resumed with human response: Use a formal tone..."
      , "Continuing agent writer with human response"
      , "Stored output result for writer"
      , "Stored raw result for writer"
      , "Agent writer continued successfully with human input"
      , "Mission execution started"
      , "Switched to node: researcher"
      , "No specific task found for researcher, using general assignment"
      , "Executing agent: researcher"
      , "Stored output result for researcher"
      , "Stored raw result for researcher"
      , "Agent researcher completed successfully"
      , "Switched to node: writer"
      , "No specific task found for writer, using general assignment"
      , "Executing agent: writer"
      , "Stored output result for writer"
      , "Stored raw result for writer"
      , "Agent writer completed successfully"
      , "Execution phase completed"
      , "Starting synthesis phase"
      , "Stored final_synthesis result for supervisor"
      , "Synthesis phase completed"
      , "Mission execution completed successfully" ]
    ∧ resumedFinalState.status = "COMPLETED"
    ∧ resumedFinalState.get_result "writer" "human_response" =
        some (.json (Json.obj
          [ ("status", Json.str "human_input_received")
          , ("response", Json.str "Use a formal tone")
          , ("original_question", Json.str "Which tone?") ])) :=
  ⟨rfl, rfl, rfl⟩

/-- C4: the claim says the walk stops after a qa node when the stored
quality score meets the threshold (default 0.85).  In the code the
default is 0.8 and `_check_quality_threshold` inspects the result-kind
dictionaries in `state.results.items()` — never the stored report — so
it finds no `overall_score` and returns False: here a qa agent has a
stored `QAReport` output scoring 0.95 against a declared 0.85 threshold,
yet the walk continues to the writer and no early exit fires. -/
theorem C4_quality_threshold_early_exit_never_fires :
    (execute_mission scoreRegistry oracleScore noTools 10 "m5" "crew5" "G" none []).2
      = .returned scoreFinalState
    ∧ scoreFinalState.get_result "qa_scorer" "output" =
        some (.qaReport { overall_score := ⟨19, 20⟩, feedback_summary := "good"
                          meets_requirements := true, recommendation := "publish"
                          estimated_completion := ⟨1, 1⟩ })
    ∧ PyNum.le ⟨17, 20⟩ ⟨19, 20⟩ = true
    ∧ check_quality_threshold scoreFinalState crew5Config = false
    ∧ countOcc scoreFinalState.history "Quality threshold reached. Mission completed." = 0
    ∧ countOcc scoreFinalState.history "Executing agent: writer" = 1 :=
  ⟨rfl, rfl, rfl, rfl, rfl, rfl⟩

/-- C5 (counterexample): in an unconditional two-node cycle every chosen
next node is already completed after the first lap, yet after nine walk
iterations (five visits to the completed entry node) the loop counter is
still 0 and no forced completion at `max_iterations = 3` occurred — the
counter is incremented only on the conditional-transitions branch. -/
theorem C5_counterexample :
    phaseIterCount cycleWalk.2.2 = some 0
    ∧ countOcc cycleWalk.2.1.history "Switched to node: researcher" = 5
    ∧ cycleWalk.2.1.completed_nodes = ["researcher", "writer"]
    ∧ countOcc cycleWalk.2.1.history "Maximum iterations (3) reached. Forcing completion." = 0 :=
  ⟨rfl, rfl, rfl, rfl⟩

/-- C6 (counterexample): a synthesis-phase exception is caught inside
`_synthesis_phase` and never reaches the orchestrator boundary: the
mission is returned COMPLETED, `error_messages` stays empty and nothing
is re-raised, contradicting the claim for the synthesis case. -/
theorem C6_counterexample :
    (execute_mission demoRegistry (synthFailOracle "boom") noTools 10 "m1" "crew1" "G"
        none []).2 = .returned synthFailedState
    ∧ synthFailedState.status = "COMPLETED"
    ∧ synthFailedState.error_messages = []
    ∧ countOcc synthFailedState.history "Synthesis failed: boom" = 1 :=
  ⟨rfl, rfl, rfl, rfl⟩

/-- C6 (amended): exceptions raised during planning or graph execution
are caught once at the `execute_mission` boundary, recorded into
`error_messages`, the mission is marked ERROR and the exception is
re-raised; a synthesis exception instead is swallowed inside the
synthesis phase (a history entry only) and the mission completes
normally. -/
theorem C6_amended_boundary_behaviour (m : String) :
    ((missionRaised (execute_mission demoRegistry (planFailOracle m) noTools 10 "m1"
        "crew1" "G" none []).2).map (fun p => (p.1, p.2.status, p.2.error_messages)))
      = some ("Planning phase failed: " ++ m, "ERROR",
          ["Mission execution failed: Planning phase failed: " ++ m])
    ∧ ((missionRaised (execute_mission demoRegistry (execFailOracle m) noTools 10 "m1"
        "crew1" "G" none []).2).map (fun p => (p.1, p.2.status, p.2.error_messages)))
      = some (m, "ERROR", ["Mission execution failed: " ++ m])
    ∧ ((missionReturned (execute_mission demoRegistry (synthFailOracle m) noTools 10 "m1"
        "crew1" "G" none []).2).map (fun s => (s.status, s.error_messages, s.history)))
      = some ("COMPLETED", [],
          [ "Mission \x27m1\x27 created."
          , "Starting planning phase with supervisor"
          , "Created plan with 1 tasks"
          , "Mission execution started"
          , "Switched to node: researcher"
          , "Executing agent: researcher"
          , "Stored output result for researcher"
          , "Stored raw result for researcher"
          , "Agent researcher completed successfully"
          , "Execution phase completed"
          , "Starting synthesis phase"
          , "Synthesis failed: " ++ m
          , "Mission execution completed successfully" ]) :=
  ⟨rfl, rfl, rfl⟩

/-- C9 (counterexample): in the end-to-end scenario (entry point
`researcher` transitioning to END, one-task plan) the final state is
COMPLETED and `researcher` ran exactly once, but `completed_nodes` is
empty, not a one-entry list: the walk exits at END without moving the
last node into `completed_nodes`. -/
theorem C9_counterexample :
    (execute_mission demoRegistry (oracleEndToEnd "t-out" "u-synth") noTools 10 "m1"
        "crew1" "G" none []).2 = .returned (endToEndState "t-out" "u-synth")
    ∧ (endToEndState "t-out" "u-synth").status = "COMPLETED"
    ∧ countOcc (endToEndState "t-out" "u-synth").history "Executing agent: researcher" = 1
    ∧ (endToEndState "t-out" "u-synth").completed_nodes = [] :=
  ⟨rfl, rfl, rfl, rfl⟩

/-- C9 (amended): for any researcher reply `t` and synthesis reply `u`,
the scenario mission completes with `researcher` executed exactly once,
its output stored, synthesis run once — but `completed_nodes` ends empty
and the executed node remains in `current_node`. -/
theorem C9_amended_end_to_end (t u : String) :
    (execute_mission demoRegistry (oracleEndToEnd t u) noTools 10 "m1" "crew1" "G"
        none []).2 = .returned (endToEndState t u)
    ∧ (endToEndState t u).status = "COMPLETED"
    ∧ countOcc (endToEndState t u).history "Executing agent: researcher" = 1
    ∧ (endToEndState t u).completed_nodes = []
    ∧ (endToEndState t u).current_node = some "researcher"
    ∧ (endToEndState t u).get_result "researcher" "output" = some (.text t)
    ∧ (endToEndState t u).get_result "researcher" "raw" = some (.text t)
    ∧ (endToEndState t u).get_result "supervisor" "final_synthesis" = some (.text u)
    ∧ countOcc (endToEndState t u).history "Starting synthesis phase" = 1
    ∧ countOcc (endToEndState t u).history "Synthesis phase completed" = 1
    ∧ (endToEndState t u).progress_percentage = ⟨100, 1⟩ :=
  ⟨rfl, rfl, rfl, rfl, rfl, rfl, rfl, rfl, rfl, rfl, rfl⟩

/-- C3: when the just-completed node's stored `output` is a
QualityAssessment, the Conditional Router is deterministic — its result
does not depend on the bridge, the crew configuration or the declared
transitions — and the chosen target follows the fixed table publish→END,
revise→writer, research_more→researcher, fail→END; a recommendation
string outside the table falls back to END and appends the error history
entry (with the `Recommendation` enum this branch is written in the code
but not reachable through a validated verdict). -/
theorem C3_deterministic_qa_routing :
    (∀ (bridge bridge' : BridgeOracle) (crew crew' : CrewConfig) (state : AgentState)
        (cur : String) (ts ts' : List TransitionRule) (q : QualityAssessment),
        state.get_result cur "output" = some (.qa q) →
        handle_conditional_transitions bridge crew state cur ts =
          handle_conditional_transitions bridge' crew' state cur ts')
    ∧ (∀ (q : QualityAssessment) (ts : List TransitionRule) (state : AgentState),
        (handle_quality_assessment_routing q ts state).2 =
          match q.recommendation with
          | .publish => "END"
          | .revise => "writer"
          | .research_more => "researcher"
          | .fail => "END")
    ∧ (∀ (r : String) (q : QualityAssessment) (state : AgentState),
        recommendation_to_target r = none →
        (qaRoutingOnString r q state).2 = "END"
        ∧ (qaRoutingOnString r q state).1.history =
            state.history
              ++ ["FEHLER: Unbekannte QA-Empfehlung \x27" ++ r ++ "\x27 - beende Mission"]) := by
  refine ⟨?_, ?_, ?_⟩
  · intro bridge bridge' crew crew' state cur ts ts' q h
    unfold handle_conditional_transitions
    rw [h]
    rfl
  · intro q ts state
    rcases q with ⟨rec, reasoning, st, iss, conf⟩
    cases rec <;> rfl
  · intro r q state h
    unfold qaRoutingOnString
    rw [h]
    exact ⟨rfl, rfl⟩

/-- C3 witness: the general routing theorem applied at concrete inputs —
a revise verdict routes to writer regardless of oracle, crew and declared
transitions, and an off-table string falls back to END. -/
theorem C3_witness :
    handle_conditional_transitions (constOracle "a") crew3Config qaWitState "qa_checker"
        loopTransitions
      = handle_conditional_transitions (constOracle "b") crew4Config qaWitState
        "qa_checker" []
    ∧ (handle_quality_assessment_routing qaRevise [] qaWitState).2 = "writer"
    ∧ (qaRoutingOnString "ship_it" qaRevise qaWitState).2 = "END"
    ∧ (qaRoutingOnString "ship_it" qaRevise qaWitState).1.history =
        qaWitState.history
          ++ ["FEHLER: Unbekannte QA-Empfehlung \x27ship_it\x27 - beende Mission"] := by
  refine ⟨?_, ?_, ?_, ?_⟩
  · exact C3_deterministic_qa_routing.1 (constOracle "a") (constOracle "b") crew3Config
      crew4Config qaWitState "qa_checker" loopTransitions [] qaRevise rfl
  · exact C3_deterministic_qa_routing.2.1 qaRevise [] qaWitState
  · exact (C3_deterministic_qa_routing.2.2 "ship_it" qaRevise qaWitState rfl).1
  · exact (C3_deterministic_qa_routing.2.2 "ship_it" qaRevise qaWitState rfl).2

/-- C5 (amended): the loop-iteration counter counts only loop-backs
chosen by the conditional-transitions branch; each such loop-back into a
completed node increments it, and once it reaches the crew's
`max_iterations` (default 3) the walk stops with a forced completion —
so a mission whose conditional routing keeps returning to a completed
node stops even with no "END" node, as the `crew3` feedback mission
shows concretely. -/
theorem C5_amended_conditional_loopbacks_counted :
    (loopFinalState.status = "COMPLETED"
      ∧ countOcc loopFinalState.history "Feedback loop iteration 1: returning to writer" = 1
      ∧ countOcc loopFinalState.history "Feedback loop iteration 3: returning to writer" = 1
      ∧ countOcc loopFinalState.history "Maximum iterations (3) reached. Forcing completion." = 1
      ∧ countOcc loopFinalState.history "Executing agent: writer" = 3)
    ∧ (∀ (registry : RegistryConfig) (bridge : BridgeOracle) (oracle : ToolOracle)
        (crew : CrewConfig) (repo : Repo) (s : AgentState) (c : String) (n : Nat),
        c ≠ "END" → c ≠ "" → crew.max_iterations.getD 3 ≤ n →
        (execution_step registry bridge oracle crew repo ⟨s, some c, n⟩).2 =
          .finished ((s.set_current_node c).add_history_entry
            ("Maximum iterations (" ++ toString (crew.max_iterations.getD 3)
              ++ ") reached. Forcing completion.")))
    ∧ (∀ (registry : RegistryConfig) (bridge : BridgeOracle) (oracle : ToolOracle)
        (crew : CrewConfig) (repo : Repo) (s s2 : AgentState) (c : String) (n : Nat)
        (nc : NodeConfig) (ts : List TransitionRule),
        c ≠ "END" → c ≠ "" → n < crew.max_iterations.getD 3 →
        execute_agent registry bridge oracle (s.set_current_node c) c = (s2, none) →
        (containsSub (pyToLower c) "qa" = false ∨ check_quality_threshold s2 crew = false) →
        alookup crew.graph.nodes c = some nc →
        nc.conditional_transitions = some ts →
        (handle_conditional_transitions bridge crew s2 c ts).2
          ∈ (handle_conditional_transitions bridge crew s2 c ts).1.completed_nodes →
        (execution_step registry bridge oracle crew repo ⟨s, some c, n⟩).2 =
          .next ⟨(handle_conditional_transitions bridge crew s2 c ts).1.add_history_entry
            ("Feedback loop iteration " ++ toString (n + 1) ++ ": returning to "
              ++ (handle_conditional_transitions bridge crew s2 c ts).2),
            some (handle_conditional_transitions bridge crew s2 c ts).2, n + 1⟩) := by
  refine ⟨⟨rfl, rfl, rfl, rfl, rfl⟩, ?_, ?_⟩
  · intro registry bridge oracle crew repo s c n h1 h2 h3
    have hcond : ¬(c = "END" ∨ c = "") := by simp [h1, h2]
    have hiter : n ≥ crew.max_iterations.getD 3 := h3
    simp only [execution_step, if_neg hcond, if_pos hiter]
  · intro registry bridge oracle crew repo s s2 c n nc ts h1 h2 h3 h4 h5 h6 h7 h8
    have hcond : ¬(c = "END" ∨ c = "") := by simp [h1, h2]
    have hiter : ¬(n ≥ crew.max_iterations.getD 3) := Nat.not_le.mpr h3
    have hqa : ¬(containsSub (pyToLower c) "qa" = true
        ∧ check_quality_threshold s2 crew = true) := by
      rcases h5 with h | h <;> simp [h]
    simp only [execution_step, if_neg hcond, if_neg hiter, h4, if_neg hqa, h6,
      Option.getD_some, h7, if_pos h8]

/-- C5 witness: the general clauses of the amended theorem applied at
concrete inputs — a walk step at the iteration cap stops with the forced
completion entry, and a conditional loop-back into the completed writer
node increments the counter from 0 to 1. -/
theorem C5_amended_witness :
    ((execution_step demoRegistry (constOracle "x") noTools crew4Config []
        ⟨runningState, some "researcher", 3⟩).2 =
      .finished ((runningState.set_current_node "researcher").add_history_entry
        ("Maximum iterations (" ++ toString (crew4Config.max_iterations.getD 3)
          ++ ") reached. Forcing completion.")))
    ∧ ((execution_step loopRegistry oracleLoop noTools crew3Config []
        ⟨preLoopState, some "qa_checker", 0⟩).2 =
      .next ⟨(handle_conditional_transitions oracleLoop crew3Config
          (execute_agent loopRegistry oracleLoop noTools
            (preLoopState.set_current_node "qa_checker") "qa_checker").1
          "qa_checker" loopTransitions).1.add_history_entry
        ("Feedback loop iteration " ++ toString (0 + 1) ++ ": returning to "
          ++ (handle_conditional_transitions oracleLoop crew3Config
            (execute_agent loopRegistry oracleLoop noTools
              (preLoopState.set_current_node "qa_checker") "qa_checker").1
            "qa_checker" loopTransitions).2),
        some (handle_conditional_transitions oracleLoop crew3Config
          (execute_agent loopRegistry oracleLoop noTools
            (preLoopState.set_current_node "qa_checker") "qa_checker").1
          "qa_checker" loopTransitions).2, 0 + 1⟩) := by
  constructor
  · exact C5_amended_conditional_loopbacks_counted.2.1 demoRegistry (constOracle "x")
      noTools crew4Config [] runningState "researcher" 3 (by decide) (by decide) (by decide)
  · exact C5_amended_conditional_loopbacks_counted.2.2 loopRegistry oracleLoop noTools
      crew3Config []
      preLoopState
      (execute_agent loopRegistry oracleLoop noTools
        (preLoopState.set_current_node "qa_checker") "qa_checker").1
      "qa_checker" 0
      { conditional_transitions := some loopTransitions }
      loopTransitions
      (by decide) (by decide) (by decide) rfl (Or.inr rfl) rfl rfl (by decide)

/-- C7: `resume_mission` on a mission whose status is not
AWAITING_HUMAN_INPUT, or whose `active_human_request` is absent, raises a
validation error before any save: the repository is returned unchanged. -/
theorem C7_resume_rejects_invalid_state (registry : RegistryConfig)
    (bridge : BridgeOracle) (oracle : ToolOracle) (fuel : Nat)
    (mission_id human_response : String) (repo : Repo) (s : AgentState)
    (hget : repo.get_by_id mission_id = some s)
    (hbad : s.status ≠ "AWAITING_HUMAN_INPUT" ∨ s.active_human_request = none) :
    (resume_mission registry bridge oracle fuel mission_id human_response repo).1 = repo
    ∧ resumeRaised
        (resume_mission registry bridge oracle fuel mission_id human_response repo).2
      = true := by
  unfold resume_mission
  rw [hget]
  by_cases hs : s.status = "AWAITING_HUMAN_INPUT"
  · rcases hbad with h | h
    · exact absurd hs h
    · simp [hs, h, resumeRaised]
  · simp [hs, resumeRaised]

/-- C7 witness: resuming a COMPLETED mission leaves the one-entry
repository untouched and raises. -/
theorem C7_witness :
    (resume_mission demoRegistry (constOracle "x") noTools 1 "m7" "reply"
        [("m7", { create_mission_state "m7" "crew1" "G" with status := "COMPLETED" })]).1
      = [("m7", { create_mission_state "m7" "crew1" "G" with status := "COMPLETED" })]
    ∧ resumeRaised (resume_mission demoRegistry (constOracle "x") noTools 1 "m7" "reply"
        [("m7", { create_mission_state "m7" "crew1" "G" with status := "COMPLETED" })]).2
      = true :=
  C7_resume_rejects_invalid_state demoRegistry (constOracle "x") noTools 1 "m7" "reply"
    [("m7", { create_mission_state "m7" "crew1" "G" with status := "COMPLETED" })]
    { create_mission_state "m7" "crew1" "G" with status := "COMPLETED" }
    rfl (Or.inl (by decide))

/-- C8: a supervisor planning reply that is not valid JSON after code
fences are stripped parses to the hard-coded fallback: a non-empty
single-task plan assigned to "researcher", and the planning phase
succeeds (returns no error) with exactly that plan — the mission
proceeds rather than failing. -/
theorem C8_plan_parse_failure_falls_back (registry : RegistryConfig)
    (state : AgentState) (crew : CrewConfig)
    (params : Option (List (String × Json))) (resp : String)
    (hparse : jsonParse (pytrim (strip_code_fences resp)) = none) :
    parse_planning_response resp = fallback_plan_data
    ∧ (planning_phase registry (constOracle resp) state crew params).2 = none
    ∧ (planning_phase registry (constOracle resp) state crew params).1.task_plan =
        some [{ task_id := "fallback_task_1", description := "Perform research and analysis"
                assigned_agent := "researcher", expected_output := "ResearchReport"
                priority := 1 }] := by
  have h1 : parse_planning_response resp = fallback_plan_data := by
    unfold parse_planning_response
    rw [hparse]
  refine ⟨h1, ?_, ?_⟩
  · unfold planning_phase
    simp only [constOracle, h1]
    rfl
  · unfold planning_phase
    simp only [constOracle, h1]
    rfl

/-- C8 witness: a plain-prose planning reply produces the fallback plan
and the phase succeeds. -/
theorem C8_witness :
    parse_planning_response "I will research the topic." = fallback_plan_data
    ∧ (planning_phase demoRegistry (constOracle "I will research the topic.")
        runningState crew4Config none).2 = none
    ∧ (planning_phase demoRegistry (constOracle "I will research the topic.")
        runningState crew4Config none).1.task_plan =
        some [{ task_id := "fallback_task_1", description := "Perform research and analysis"
                assigned_agent := "researcher", expected_output := "ResearchReport"
                priority := 1 }] :=
  C8_plan_parse_failure_falls_back demoRegistry runningState crew4Config none
    "I will research the topic." rfl

/-- C10: `_execute_tool_call` turns each local failure into a returned
`{"error": ...}` dictionary instead of an exception — invalid tool-call
JSON, a tool name absent from the registry, and an ordinary exception
from the tool function all yield an `error`-keyed dictionary and leave
the mission status (hence the RUNNING mission) untouched, so the
tool-use loop keeps going. -/
theorem C10_tool_failures_return_error_dicts :
    (∀ (oracle : ToolOracle) (state : AgentState) (agent_name response : String),
        jsonParse (pytrim response) = none →
        execute_tool_call oracle response state agent_name =
          (state, .ok (errorDict "Invalid JSON in tool call: Expecting value")))
    ∧ (∀ (oracle : ToolOracle) (state : AgentState) (agent_name response : String)
        (fields : List (String × Json)) (tn : String),
        jsonParse (pytrim response) = some (Json.obj fields) →
        alookup fields "tool_name" = some (Json.str tn) →
        alookup TOOL_REGISTRY tn = none →
        execute_tool_call oracle response state agent_name =
          (state, .ok (Json.obj
            [ ("error", Json.str ("Tool \x27" ++ tn ++ "\x27 not found in registry"))
            , ("available_tools", Json.arr (TOOL_REGISTRY.map (fun kv => Json.str kv.1))) ])))
    ∧ (∀ (oracle : ToolOracle) (state : AgentState) (agent_name response : String)
        (fields args : List (String × Json)) (tn : String) (entry : ToolRegEntry)
        (m : String),
        jsonParse (pytrim response) = some (Json.obj fields) →
        alookup fields "tool_name" = some (Json.str tn) →
        alookup fields "args" = some (Json.obj args) →
        alookup TOOL_REGISTRY tn = some entry →
        pyCall entry.fn oracle (ask_human_arg_injection tn args agent_name) = .exn m →
        (execute_tool_call oracle response state agent_name).2 =
          .ok (errorDict ("Tool execution failed: " ++ m))
        ∧ (execute_tool_call oracle response state agent_name).1.status = state.status) := by
  refine ⟨?_, ?_, ?_⟩
  · intro oracle state agent_name response h
    unfold execute_tool_call
    rw [h]
  · intro oracle state agent_name response fields tn h1 h2 h3
    unfold execute_tool_call
    rw [h1]
    simp only [Json.getKey, h2, Json.asStr, h3]
  · intro oracle state agent_name response fields args tn entry m h1 h2 h3 h4 h5
    unfold execute_tool_call
    rw [h1]
    simp only [Json.getKey, h2, Json.asStr, h3, h4, Option.getD_some, h5, toolCallFailure]
    exact ⟨trivial, rfl⟩

/-- C10 witness: the three failure shapes at concrete inputs — unparseable
text, an unknown tool name, and a failing `web_search` call. -/
theorem C10_witness :
    execute_tool_call noTools ":::" runningState "writer" =
      (runningState, .ok (errorDict "Invalid JSON in tool call: Expecting value"))
    ∧ execute_tool_call noTools "\x7b\"tool_name\": \"nope\", \"args\": \x7b\x7d\x7d"
        runningState "writer" =
      (runningState, .ok (Json.obj
        [ ("error", Json.str ("Tool \x27nope\x27 not found in registry"))
        , ("available_tools", Json.arr (TOOL_REGISTRY.map (fun kv => Json.str kv.1))) ]))
    ∧ (execute_tool_call noTools
          "\x7b\"tool_name\": \"web_search\", \"args\": \x7b\"query\": \"x\"\x7d\x7d"
          runningState "writer").2 =
        .ok (errorDict ("Tool execution failed: " ++ "offline"))
    ∧ (execute_tool_call noTools
          "\x7b\"tool_name\": \"web_search\", \"args\": \x7b\"query\": \"x\"\x7d\x7d"
          runningState "writer").1.status = runningState.status := by
  refine ⟨?_, ?_, ?_, ?_⟩
  · exact C10_tool_failures_return_error_dicts.1 noTools runningState "writer" ":::" rfl
  · exact C10_tool_failures_return_error_dicts.2.1 noTools runningState "writer"
      "\x7b\"tool_name\": \"nope\", \"args\": \x7b\x7d\x7d"
      [("tool_name", Json.str "nope"), ("args", Json.obj [])] "nope" rfl rfl rfl
  · exact (C10_tool_failures_return_error_dicts.2.2 noTools runningState "writer"
      "\x7b\"tool_name\": \"web_search\", \"args\": \x7b\"query\": \"x\"\x7d\x7d"
      [("tool_name", Json.str "web_search"), ("args", Json.obj [("query", Json.str "x")])]
      [("query", Json.str "x")] "web_search"
      ⟨webToolFn "search_web" ["query", "max_results"] ["query"], true⟩ "offline"
      rfl rfl rfl rfl rfl).1
  · exact (C10_tool_failures_return_error_dicts.2.2 noTools runningState "writer"
      "\x7b\"tool_name\": \"web_search\", \"args\": \x7b\"query\": \"x\"\x7d\x7d"
      [("tool_name", Json.str "web_search"), ("args", Json.obj [("query", Json.str "x")])]
      [("query", Json.str "x")] "web_search"
      ⟨webToolFn "search_web" ["query", "max_results"] ["query"], true⟩ "offline"
      rfl rfl rfl rfl rfl).2

end Machina
